import Mathlib

/-!
# efianalyze: report formatting and dispatch

A shallow embedding of `cmd/efianalyze/main.go`.  The program is glue around
the go-uefi decoders: it reads a file, calls a decoder and prints a report.

* Every observable action of the program (a `fmt.Printf`/`fmt.Println` call,
  an `os.WriteFile` call, a file read, a call into a go-uefi decoder, a
  `log.Fatal`) is an `Event`; a run of a function is the `Trace` of events it
  appends to the trace it was started with, in program order.
* The decoders, lookup tables and GUID constants live outside `main.go`; they
  are the fields of `Env`, and every theorem quantifies over `Env`.
* `log.Fatal`/`log.Fatalln` write to standard error and call `os.Exit(1)`;
  an index out of range in `main`, or a panic inside a decoder the program
  calls, is a run-time panic.  Both end the run (`Outcome`).
-/

set_option autoImplicit false

namespace Efianalyze

/-! ## Data model (the go-uefi types the program reads fields of) -/

/-- A byte sequence (`[]byte`, `[]uint8`). -/
abbrev Bytes := List Nat

/-- Modelled from the spec: the declaration of `util.EFIGUID` is not in
`main.go`; per the data model a GUID is a 16-byte value, equal by byte content. -/
structure EFIGUID where
  bytes : List Nat
  deriving DecidableEq, Repr

/-- Modelled from the spec: the declaration of `signature.SignatureData`, one
entry of a signature list (owner GUID and payload), with the field names
`main.go` reads. -/
structure SignatureData where
  Owner : EFIGUID
  Data : Bytes
  deriving DecidableEq, Repr

/-- Modelled from the spec: the declaration of `signature.SignatureList`, with
the field names `main.go` reads (`Size` is the size of one entry); the three
sizes are `uint32`, the slice `Signatures` keeps file order. -/
structure SignatureList where
  SignatureType : EFIGUID
  ListSize : Nat
  HeaderSize : Nat
  Size : Nat
  SignatureHeader : Bytes
  Signatures : List SignatureData
  deriving DecidableEq, Repr

/-- The fields of `x509.Certificate` the program uses.  `Issuer` holds the text
`cert.Issuer.String()` yields, `SerialNumber` the value of the `*big.Int`. -/
structure Certificate where
  Raw : Bytes
  Issuer : String
  SerialNumber : Int
  deriving DecidableEq, Repr

/-- Modelled from the spec: the declaration of `util.EFITime`, the EFI timestamp
(year to nanosecond, time zone and daylight fields). -/
structure EFITime where
  Year : Nat
  Month : Nat
  Day : Nat
  Hour : Nat
  Minute : Nat
  Second : Nat
  Nanosecond : Nat
  TimeZone : Int
  Daylight : Nat
  deriving DecidableEq, Repr

/-- Modelled from the spec: the declaration of `signature.WINCertificate`, the
WIN_CERTIFICATE record (`Length` u32, `Revision` u16, `CertType` u16, and for
an embedded signature of a PE image its `Certificate` bytes). -/
structure WINCertificate where
  Length : Nat
  Revision : Nat
  CertType : Nat
  Certificate : Bytes
  deriving DecidableEq, Repr

/-- Modelled from the spec: the declaration of `signature.WinCertificateUEFIGUID`,
the `AuthInfo` of an authenticated variable. -/
structure WinCertificateUEFIGUID where
  Header : WINCertificate
  CertType : EFIGUID
  CertData : Bytes
  deriving DecidableEq, Repr

/-- Modelled from the spec: the declaration of
`signature.EFIVariableAuthentication2`. -/
structure EFIVariableAuthentication2 where
  Time : EFITime
  AuthInfo : WinCertificateUEFIGUID
  deriving DecidableEq, Repr

/-- Modelled from the spec: the declaration of the data directory entry that
`pecoff.GetSignatureDataDirectory` returns (two `uint32` fields). -/
structure DataDirectory where
  VirtualAddress : Nat
  Size : Nat
  deriving DecidableEq, Repr

/-- Modelled from the spec: the `IssuerAndSerialNumber` of a PKCS7 signer info,
with the two fields `main.go` reads: `IssuerName.FullBytes` and the serial. -/
structure IssuerAndSerial where
  IssuerNameFullBytes : Bytes
  SerialNumber : Int
  deriving DecidableEq, Repr

/-- Modelled from the spec: one element of `c.Content.SignerInfos`. -/
structure SignerInfo where
  IssuerAndSerialNumber : IssuerAndSerial
  deriving DecidableEq, Repr

/-- An `io.Reader` handed to a decoder: the nil handle a failed open leaves
behind, or a stream with its unread bytes. -/
inductive Reader where
  | nil
  | stream (unread : Bytes)
  deriving DecidableEq, Repr

/-- The constructor call `bytes.NewReader(b)`. -/
def NewReader (b : Bytes) : Reader := Reader.stream b

/-! ## Events, traces and outcomes -/

/-- An operand of a `fmt` call: a string, a machine integer (the program's
are `uint16`, `uint32` and `len` results, none negative), a `*big.Int`, or a
byte slice. -/
inductive Arg where
  | str (s : String)
  | int (n : Nat)
  | big (n : Int)
  | bytes (b : Bytes)
  deriving DecidableEq, Repr

/-- One observable action of the program. -/
inductive Event where
  | Printf (format : String) (args : List Arg)
  | Println (args : List Arg)
  | WriteFile (name : String) (data : Bytes) (perm : Nat)
  | ReadFile (filename : String)
  | ReadEfivarsFile (filename : String)
  | ReadSignatureDatabase (r : Reader)
  | ReadEFIVariableAuthencation2 (r : Reader)
  | GetSignatureDataDirectory (b : Bytes)
  | GetSignatures (b : Bytes)
  | ParseSignature (b : Bytes)
  | Fatal (err : String)
  | Fatalln (msg : String)
  deriving DecidableEq, Repr

/-- The events of a run, oldest first. -/
abbrev Trace := List Event

/-- How a run ends. -/
inductive Outcome where
  | returned
  | exited (code : Nat)
  | panicked
  deriving DecidableEq, Repr

/-- A finished run of a handler or of `main`. -/
structure Run where
  trace : Trace
  outcome : Outcome
  deriving DecidableEq, Repr

/-- How a call into a go-uefi decoder ends: it returns a value and a nil error,
it returns an error, or it does not return because the callee panics (a nil
dereference, an index out of range), which ends the process. -/
inductive CallResult (α : Type) where
  | ok (value : α)
  | error (err : String)
  | panic
  deriving DecidableEq, Repr

/-- What lies outside `main.go` and is taken as given: GUID constants, lookup
tables, the `Format` methods, the file reads and the decoders.  A standard
library function that returns `(value, error)` is an `Except`, or a pair when
the program uses the value whatever the error; a go-uefi decoder is a
`CallResult`, and one that takes a reader returns with its result the reader
as it leaves it. -/
structure Env where
  -- the package-level GUID values of package `signature`
  CERT_X509_GUID : EFIGUID
  CERT_SHA256_GUID : EFIGUID
  EFI_CERT_TYPE_RSA2048_SHA256_GUID : EFIGUID
  EFI_CERT_TYPE_PKCS7_GUID : EFIGUID
  -- the maps `signature.ValidEFISignatureSchemes` and `signature.WINCertTypeString`
  ValidEFISignatureSchemes : List (EFIGUID × String)
  WINCertTypeString : List (Nat × String)
  -- the methods `(EFIGUID).Format()` and `(EFITime).Format()`
  guidFormat : EFIGUID → String
  timeFormat : EFITime → String
  -- `x509.ParseCertificate`: a certificate and a nil error, or a nil certificate
  -- and an error
  ParseCertificate : Bytes → Except String Certificate
  -- `asn1.Unmarshal(fullBytes, &issuer)` followed by `issuer.String()`
  issuerString : Bytes → String
  -- `ioutil.ReadFile`: the bytes read and the error, if any
  ReadFile : String → Bytes × Option String
  -- `attributes.ReadEfivarsFile`: the attributes, the reader and the error, if any
  ReadEfivarsFile : String → Nat × Reader × Option String
  ReadSignatureDatabase : Reader → CallResult (List SignatureList) × Reader
  ReadEFIVariableAuthencation2 : Reader → CallResult EFIVariableAuthentication2 × Reader
  GetSignatureDataDirectory : Bytes → CallResult DataDirectory
  GetSignatures : Bytes → CallResult (List WINCertificate)
  -- `pkcs7.ParseSignature` has no error result: the signer infos of the content
  -- it returns, or `none` when the call ends the process
  ParseSignature : Bytes → Option (List SignerInfo)

/-- A Go map index expression `m[k]` with string values: the value stored
under the first matching key, the empty string when the key is absent. -/
def mapIndex {κ : Type} [DecidableEq κ] (m : List (κ × String)) (k : κ) : String :=
  match m.find? (fun p => decide (p.1 = k)) with
  | some p => p.2
  | none => ""

/-- The method `(*big.Int).String()`: the decimal text of the value. -/
def bigIntString (n : Int) : String := toString n

/-! ## The program -/

/-- The body of the inner loop of `FormatSignatureList` (lines 30-45): the
owner line, then the type switch on the enclosing list's `SignatureType`. -/
def FormatSignatureList.sigEntry (env : Env) (sig : SignatureList) (t : Trace)
    (sigEntry : SignatureData) : Trace :=
  let t := t ++ [Event.Printf "\tSignature Owner: %s\n" [Arg.str (env.guidFormat sigEntry.Owner)]]
  if sig.SignatureType = env.CERT_X509_GUID then
    match env.ParseCertificate sigEntry.Data with
    | Except.ok cert =>
      let t := t ++ [Event.Printf "\t\tIssuer: %s\n" [Arg.str cert.Issuer]]
      let t := t ++ [Event.Printf "\t\tSerial Number: %d\n" [Arg.big cert.SerialNumber]]
      t ++ [Event.WriteFile (bigIntString cert.SerialNumber) cert.Raw 0o644]
    | Except.error _ => t
  else if sig.SignatureType = env.CERT_SHA256_GUID then
    let t := t ++ [Event.Printf "\t\tType: %s\n" [Arg.str "SHA256"]]
    t ++ [Event.Printf "\t\tChecksum: %x\n" [Arg.bytes sigEntry.Data]]
  else
    let t := t ++ [Event.Println [Arg.str "Not implemented!"]]
    t ++ [Event.Println [Arg.str (env.guidFormat sig.SignatureType)]]

/-- The body of the outer loop of `FormatSignatureList` (lines 22-46). -/
def FormatSignatureList.sig (env : Env) (t : Trace) (sig : SignatureList) : Trace :=
  let t := t ++ [Event.Printf "\nSignature Type: %s\n"
    [Arg.str (mapIndex env.ValidEFISignatureSchemes sig.SignatureType)]]
  let t := t ++ [Event.Printf "Signature List List Size : %d\n" [Arg.int sig.ListSize]]
  let t := t ++ [Event.Printf "Signature List Header Size : %d\n" [Arg.int sig.HeaderSize]]
  let t := t ++ [Event.Printf "Signature List Size : %d\n" [Arg.int sig.Size]]
  let t := t ++ [Event.Printf "Signature List Signature Header: %x (usually empty)\n"
    [Arg.bytes sig.SignatureHeader]]
  let t := t ++ [Event.Printf "Signature List Number of Signatures: %d\n"
    [Arg.int sig.Signatures.length]]
  let t := t ++ [Event.Printf "Signature List Signatures:\n" []]
  sig.Signatures.foldl (FormatSignatureList.sigEntry env sig) t

/-- The function `FormatSignatureList` (lines 19-48).  The elements of
`siglist` are the lists the slice's pointers refer to. -/
def FormatSignatureList (env : Env) (t : Trace) (siglist : List SignatureList) : Trace :=
  let t := t ++ [Event.Printf "\nNumber of Signatures in the Signature List: %d\n"
    [Arg.int siglist.length]]
  siglist.foldl (FormatSignatureList.sig env) t

/-- The function `ParseKeyDb` (lines 50-57). -/
def ParseKeyDb (env : Env) (filename : String) : Run :=
  let t : Trace := [Event.ReadEfivarsFile filename]
  let f := (env.ReadEfivarsFile filename).2.1
  let t := t ++ [Event.ReadSignatureDatabase f]
  match (env.ReadSignatureDatabase f).1 with
  | CallResult.panic => Run.mk t Outcome.panicked
  | CallResult.error err => Run.mk (t ++ [Event.Fatal err]) (Outcome.exited 1)
  | CallResult.ok siglist => Run.mk (FormatSignatureList env t siglist) Outcome.returned

/-- The function `ParseSignatureList` (lines 59-67). -/
def ParseSignatureList (env : Env) (filename : String) : Run :=
  let t : Trace := [Event.ReadFile filename]
  let b := (env.ReadFile filename).1
  let f := NewReader b
  let t := t ++ [Event.ReadSignatureDatabase f]
  match (env.ReadSignatureDatabase f).1 with
  | CallResult.panic => Run.mk t Outcome.panicked
  | CallResult.error err => Run.mk (t ++ [Event.Fatal err]) (Outcome.exited 1)
  | CallResult.ok siglist => Run.mk (FormatSignatureList env t siglist) Outcome.returned

/-- The function `FormatEFIVariableAuth2` (lines 69-96).  The switch on
`sig.AuthInfo.CertType` has no default case. -/
def FormatEFIVariableAuth2 (env : Env) (t : Trace) (sig : EFIVariableAuthentication2) : Trace :=
  let t := t ++ [Event.Println [Arg.str "EFI Authentication Variable"]]
  let t := t ++ [Event.Printf "\tEFI Signing Time: %s\n" [Arg.str (env.timeFormat sig.Time)]]
  let t := t ++ [Event.Println [Arg.str "\tWINCertificate Info"]]
  let t := t ++ [Event.Println [Arg.str "\t\tHeader:"]]
  let t := t ++ [Event.Printf "\t\t\tLength %d\n" [Arg.int sig.AuthInfo.Header.Length]]
  let t := t ++ [Event.Printf "\t\t\tRevision: 0x%x (should be 0x200) \n"
    [Arg.int sig.AuthInfo.Header.Revision]]
  let t := t ++ [Event.Printf "\t\t\tCertType: %s\n"
    [Arg.str (mapIndex env.WINCertTypeString sig.AuthInfo.Header.CertType)]]
  let t := t ++ [Event.Printf "\t\tCertificate Type: " []]
  if sig.AuthInfo.CertType = env.EFI_CERT_TYPE_RSA2048_SHA256_GUID then
    t ++ [Event.Println [Arg.str "RSA2048 SHA256"]]
  else if sig.AuthInfo.CertType = env.EFI_CERT_TYPE_PKCS7_GUID then
    t ++ [Event.Println [Arg.str "PKCS7"]]
  else
    t

/-- The function `ParseEFIAuthVariable` (lines 98-112).  Both decoders read
from the one `reader`. -/
def ParseEFIAuthVariable (env : Env) (filename : String) : Run :=
  let t : Trace := [Event.ReadFile filename]
  let b := (env.ReadFile filename).1
  let reader := NewReader b
  let t := t ++ [Event.ReadEFIVariableAuthencation2 reader]
  match env.ReadEFIVariableAuthencation2 reader with
  | (CallResult.panic, _) => Run.mk t Outcome.panicked
  | (CallResult.error err, _) => Run.mk (t ++ [Event.Fatal err]) (Outcome.exited 1)
  | (CallResult.ok sig, reader) =>
    let t := FormatEFIVariableAuth2 env t sig
    let t := t ++ [Event.ReadSignatureDatabase reader]
    match (env.ReadSignatureDatabase reader).1 with
    | CallResult.panic => Run.mk t Outcome.panicked
    | CallResult.error err => Run.mk (t ++ [Event.Fatal err]) (Outcome.exited 1)
    | CallResult.ok siglist => Run.mk (FormatSignatureList env t siglist) Outcome.returned

/-- The body of the loop over `c.Content.SignerInfos` (lines 139-142). -/
def ParseEFIImage.signerInfo (env : Env) (t : Trace) (si : SignerInfo) : Trace :=
  let t := t ++ [Event.Printf "\tIssuer Name: %s\n"
    [Arg.str (env.issuerString si.IssuerAndSerialNumber.IssuerNameFullBytes)]]
  t ++ [Event.Printf "\tSerial Number: %s\n" [Arg.big si.IssuerAndSerialNumber.SerialNumber]]

/-- The loop over `signatures` (lines 135-144).  `pkcs7.ParseSignature`
returns no error value; a call that does not return ends the run. -/
def ParseEFIImage.signatures (env : Env) : Trace → List WINCertificate → Run
  | t, [] => Run.mk t Outcome.returned
  | t, sig :: rest =>
    let t := t ++ [Event.Printf "Certificate Type: %s\n"
      [Arg.str (mapIndex env.WINCertTypeString sig.CertType)]]
    let t := t ++ [Event.ParseSignature sig.Certificate]
    match env.ParseSignature sig.Certificate with
    | none => Run.mk t (Outcome.exited 1)
    | some signerInfos =>
      ParseEFIImage.signatures env (signerInfos.foldl (ParseEFIImage.signerInfo env) t) rest

/-- The function `ParseEFIImage` (lines 114-145). -/
def ParseEFIImage (env : Env) (filename : String) : Run :=
  let t : Trace := [Event.ReadFile filename]
  match env.ReadFile filename with
  | (_, some err) => Run.mk (t ++ [Event.Fatal err]) (Outcome.exited 1)
  | (b, none) =>
    let t := t ++ [Event.GetSignatureDataDirectory b]
    match env.GetSignatureDataDirectory b with
    | CallResult.panic => Run.mk t Outcome.panicked
    | CallResult.error err => Run.mk (t ++ [Event.Fatal err]) (Outcome.exited 1)
    | CallResult.ok datadir =>
      let t := t ++ [Event.Println [Arg.str "Data Directory Header:"]]
      let t := t ++ [Event.Printf "\tVirtual Address: 0x%x\n" [Arg.int datadir.VirtualAddress]]
      let t := t ++ [Event.Printf "\tSize in bytes: %d\n" [Arg.int datadir.Size]]
      let t := if datadir.Size = 0 then t ++ [Event.Println [Arg.str "No signatures"]] else t
      let t := t ++ [Event.GetSignatures b]
      match env.GetSignatures b with
      | CallResult.panic => Run.mk t Outcome.panicked
      | CallResult.error err => Run.mk (t ++ [Event.Fatal err]) (Outcome.exited 1)
      | CallResult.ok signatures => ParseEFIImage.signatures env t signatures

/-- The function `main` (lines 147-168), as a function of `os.Args`. -/
def main (env : Env) (osArgs : List String) : Run :=
  if osArgs.length = 1 then
    Run.mk [Event.Fatalln "Need type"] (Outcome.exited 1)
  else if osArgs.length = 2 then
    Run.mk [Event.Fatalln "Need filename"] (Outcome.exited 1)
  else
    match osArgs.get? 1, osArgs.get? 2 with
    | some efiType, some file =>
      if efiType = "KEK" ∨ efiType = "PK" ∨ efiType = "db" ∨ efiType = "dbx" then
        ParseKeyDb env file
      else if efiType = "siglist" then
        ParseSignatureList env file
      else if efiType = "signed" then
        ParseEFIAuthVariable env file
      else if efiType = "signed-image" then
        ParseEFIImage env file
      else
        Run.mk [] Outcome.returned
    | _, _ => Run.mk [] Outcome.panicked

/-! ## Reading a trace -/

/-- The `fmt.Printf` call that reports the number of signature lists. -/
def countLine (n : Nat) : Event :=
  Event.Printf "\nNumber of Signatures in the Signature List: %d\n" [Arg.int n]

/-- The `fmt.Printf` call that reports the owner of one entry. -/
def ownerLine (env : Env) (e : SignatureData) : Event :=
  Event.Printf "\tSignature Owner: %s\n" [Arg.str (env.guidFormat e.Owner)]

/-- The seven `fmt.Printf` calls that open the block of one signature list. -/
def listHeader (env : Env) (sig : SignatureList) : List Event :=
  [Event.Printf "\nSignature Type: %s\n"
      [Arg.str (mapIndex env.ValidEFISignatureSchemes sig.SignatureType)],
   Event.Printf "Signature List List Size : %d\n" [Arg.int sig.ListSize],
   Event.Printf "Signature List Header Size : %d\n" [Arg.int sig.HeaderSize],
   Event.Printf "Signature List Size : %d\n" [Arg.int sig.Size],
   Event.Printf "Signature List Signature Header: %x (usually empty)\n"
      [Arg.bytes sig.SignatureHeader],
   Event.Printf "Signature List Number of Signatures: %d\n" [Arg.int sig.Signatures.length],
   Event.Printf "Signature List Signatures:\n" []]

/-- Recognises a 'Signature Owner' line by the format string of its call. -/
def isOwnerLine : Event → Bool
  | Event.Printf format _ => format == "\tSignature Owner: %s\n"
  | _ => false

/-- Recognises the count line that opens a signature-list report. -/
def isCountLine : Event → Bool
  | Event.Printf format _ => format == "\nNumber of Signatures in the Signature List: %d\n"
  | _ => false

/-- Recognises an `os.WriteFile` call. -/
def isWrite : Event → Bool
  | Event.WriteFile _ _ _ => true
  | _ => false

/-- Recognises a `log.Fatal` or `log.Fatalln` call. -/
def isFatal : Event → Bool
  | Event.Fatal _ => true
  | Event.Fatalln _ => true
  | _ => false

/-- Recognises a write to standard output. -/
def isPrint : Event → Bool
  | Event.Printf _ _ => true
  | Event.Println _ => true
  | _ => false

/-! ## The text a `fmt` call writes -/

/-- The verb `%x` on an unsigned integer: lower-case hexadecimal digits. -/
def hexNat (n : Nat) : String := String.mk (Nat.toDigits 16 n)

/-- The verb `%x` on one byte of a byte slice: two hexadecimal digits. -/
def hexByte (b : Nat) : String :=
  String.mk [Nat.digitChar (b / 16 % 16), Nat.digitChar (b % 16)]

/-- The text of one operand under one verb, for the verb and operand pairs the
program uses; `none` for every other pair. -/
def formatOperand (verb : Char) (a : Arg) : Option String :=
  match a with
  | Arg.str s => if verb = 's' then some s else none
  | Arg.int n =>
    if verb = 'd' then some (toString n) else if verb = 'x' then some (hexNat n) else none
  | Arg.big n => if verb = 'd' ∨ verb = 's' then some (toString n) else none
  | Arg.bytes b => if verb = 'x' then some (String.join (b.map hexByte)) else none

/-- The function `fmt.Sprintf` on the characters of the format: a `%` takes the
next character as the verb of the next operand, every other character is
copied.  `none` when operands and verbs do not match up. -/
def sprintfChars : List Char → List Arg → Option (List Char)
  | [], args => if args.isEmpty then some [] else none
  | c :: rest, args =>
    if c = '%' then
      match rest, args with
      | verb :: rest, a :: args =>
        match formatOperand verb a, sprintfChars rest args with
        | some s, some out => some (s.toList ++ out)
        | _, _ => none
      | _, _ => none
    else
      match sprintfChars rest args with
      | some out => some (c :: out)
      | none => none

/-- The text `fmt.Printf(format, args...)` writes to standard output. -/
def Sprintf (format : String) (args : List Arg) : Option String :=
  match sprintfChars format.toList args with
  | some out => some (String.mk out)
  | none => none

/-! ## A sample environment

Small stand-ins for the decoders, used to run the program on concrete inputs. -/

/-- The GUID EFI_CERT_X509_GUID, a5c059a1-94e4-4aa7-87b5-ab155c2bf072. -/
def sampleX509 : EFIGUID :=
  ⟨[0xa1, 0x59, 0xc0, 0xa5, 0xe4, 0x94, 0xa7, 0x4a, 0x87, 0xb5, 0xab, 0x15, 0x5c, 0x2b, 0xf0, 0x72]⟩

/-- The GUID EFI_CERT_SHA256_GUID, c1c41626-504c-4092-aca9-41f936934328. -/
def sampleSHA256 : EFIGUID :=
  ⟨[0x26, 0x16, 0xc4, 0xc1, 0x4c, 0x50, 0x92, 0x40, 0xac, 0xa9, 0x41, 0xf9, 0x36, 0x93, 0x43, 0x28]⟩

/-- The GUID EFI_CERT_TYPE_RSA2048_SHA256_GUID, a7717414-c616-4977-9420-844712a735bf. -/
def sampleRSA2048 : EFIGUID :=
  ⟨[0x14, 0x74, 0x71, 0xa7, 0x16, 0xc6, 0x77, 0x49, 0x94, 0x20, 0x84, 0x47, 0x12, 0xa7, 0x35, 0xbf]⟩

/-- The GUID EFI_CERT_TYPE_PKCS7_GUID, 4aafd29d-68df-49ee-8aa9-347d375665a7. -/
def samplePKCS7 : EFIGUID :=
  ⟨[0x9d, 0xd2, 0xaf, 0x4a, 0xdf, 0x68, 0xee, 0x49, 0x8a, 0xa9, 0x34, 0x7d, 0x37, 0x56, 0x65, 0xa7]⟩

/-- A signature type GUID that is in no table. -/
def sampleUnknown : EFIGUID :=
  ⟨[0x01, 0x02, 0x03, 0x04, 0x05, 0x06, 0x07, 0x08, 0x09, 0x0a, 0x0b, 0x0c, 0x0d, 0x0e, 0x0f, 0x10]⟩

/-- An owner GUID. -/
def sampleOwnerA : EFIGUID :=
  ⟨[0xbd, 0x9a, 0xfa, 0x77, 0x59, 0x03, 0x32, 0x4d, 0xbd, 0x60, 0x28, 0xf4, 0xe7, 0x8f, 0x78, 0x4b]⟩

/-- Another owner GUID. -/
def sampleOwnerB : EFIGUID :=
  ⟨[0x11, 0x11, 0x11, 0x11, 0x22, 0x22, 0x33, 0x33, 0x44, 0x44, 0x12, 0x34, 0x56, 0x78, 0x9a, 0xbc]⟩

/-- The canonical mixed-endian text of a GUID. -/
def sampleGuidFormat (g : EFIGUID) : String :=
  match g.bytes with
  | [b0, b1, b2, b3, b4, b5, b6, b7, b8, b9, b10, b11, b12, b13, b14, b15] =>
    String.join [hexByte b3, hexByte b2, hexByte b1, hexByte b0, "-", hexByte b5, hexByte b4,
      "-", hexByte b7, hexByte b6, "-", hexByte b8, hexByte b9, "-", hexByte b10, hexByte b11,
      hexByte b12, hexByte b13, hexByte b14, hexByte b15]
  | _ => ""

/-- A stand-in for `x509.ParseCertificate`: a blob that opens with the DER
SEQUENCE tag 0x30 parses, its second byte being the serial number. -/
def sampleParseCertificate : Bytes → Except String Certificate
  | 0x30 :: serial :: rest =>
    Except.ok (Certificate.mk (0x30 :: serial :: rest) "CN=Sample CA" serial)
  | _ => Except.error "x509: malformed certificate"

/-- A second stand-in for `x509.ParseCertificate`, under which the data of
`sampleBadEntry` parses too (serial number 5); elsewhere it is the first. -/
def sampleLenientParse (data : Bytes) : Except String Certificate :=
  if data = [0xff, 0, 0] then Except.ok (Certificate.mk data "CN=Lenient CA" 5)
  else sampleParseCertificate data

/-- An entry whose data parses as a certificate (serial number 7). -/
def sampleGoodEntry : SignatureData := SignatureData.mk sampleOwnerA [0x30, 7, 1]

/-- An entry whose data does not parse as a certificate. -/
def sampleBadEntry : SignatureData := SignatureData.mk sampleOwnerB [0xff, 0, 0]

/-- Another entry whose data parses (serial number 9). -/
def sampleLateEntry : SignatureData := SignatureData.mk sampleOwnerB [0x30, 9, 2]

/-- An X.509 list: a good entry, a bad one, a good one. -/
def sampleX509List : SignatureList :=
  SignatureList.mk sampleX509 85 0 19 [] [sampleGoodEntry, sampleBadEntry, sampleLateEntry]

/-- An X.509 list whose only entry does not parse. -/
def sampleBadList : SignatureList :=
  SignatureList.mk sampleX509 47 0 19 [] [sampleBadEntry]

/-- A SHA-256 list with the same digest entered twice. -/
def sampleSHA256List : SignatureList :=
  SignatureList.mk sampleSHA256 66 0 19 []
    [SignatureData.mk sampleOwnerA [1, 2, 3], SignatureData.mk sampleOwnerA [1, 2, 3]]

/-- A list of a signature type the program does not know. -/
def sampleUnknownList : SignatureList :=
  SignatureList.mk sampleUnknown 66 0 19 []
    [SignatureData.mk sampleOwnerA [4, 5, 6], SignatureData.mk sampleOwnerB [7, 8, 9]]

/-- An authenticated-variable header with Revision 0x0100, not 0x0200. -/
def sampleAuth : EFIVariableAuthentication2 :=
  EFIVariableAuthentication2.mk (EFITime.mk 2021 3 14 15 9 26 0 0 0)
    (WinCertificateUEFIGUID.mk (WINCertificate.mk 24 0x100 0x0ef1 []) samplePKCS7 [])

/-- A stand-in for `ioutil.ReadFile`: three files exist; reading "torn.esl"
fails after one byte, any other name does not open. -/
def sampleReadFile (filename : String) : Bytes × Option String :=
  if filename = "db.esl" then ([1], none)
  else if filename = "bad.esl" then ([0xff], none)
  else if filename = "db.auth" then ([2, 1], none)
  else if filename = "bad.auth" then ([2, 0xff], none)
  else if filename = "junk.auth" then ([0xff], none)
  else if filename = "empty.efi" then ([0x4d, 0x5a], none)
  else if filename = "torn.esl" then ([1], some "read torn.esl: input/output error")
  else ([], some "open: no such file or directory")

/-- A stand-in for `attributes.ReadEfivarsFile`. -/
def sampleReadEfivarsFile (filename : String) : Nat × Reader × Option String :=
  if filename = "db" then (7, Reader.stream [1], none)
  else if filename = "dbx" then (7, Reader.stream [0xff], none)
  else (0, Reader.nil, some "open: no such file or directory")

/-- A stand-in for `signature.ReadSignatureDatabase`: no bytes decode to the
empty database, a leading 1 to a two-list database, any other stream fails;
on the nil reader the call dereferences it and panics. -/
def sampleReadSignatureDatabase : Reader → CallResult (List SignatureList) × Reader
  | Reader.stream [] => (CallResult.ok [], Reader.stream [])
  | Reader.stream (1 :: _) => (CallResult.ok [sampleX509List, sampleSHA256List], Reader.stream [])
  | Reader.stream unread => (CallResult.error "unexpected EOF", Reader.stream unread)
  | Reader.nil => (CallResult.panic, Reader.nil)

/-- A stand-in for `signature.ReadEFIVariableAuthencation2`: a leading 2 decodes
to `sampleAuth` and is consumed, anything else fails. -/
def sampleReadEFIVariableAuthencation2 :
    Reader → CallResult EFIVariableAuthentication2 × Reader
  | Reader.stream (2 :: rest) => (CallResult.ok sampleAuth, Reader.stream rest)
  | r => (CallResult.error "EOF", r)

/-- A stand-in for `pecoff.GetSignatureDataDirectory`: an image that opens with
"MZ" has an empty certificate table. -/
def sampleGetSignatureDataDirectory : Bytes → CallResult DataDirectory
  | 0x4d :: 0x5a :: _ => CallResult.ok (DataDirectory.mk 0 0)
  | _ => CallResult.error "not a PE image"

/-- The sample environment. -/
def sampleEnv : Env where
  CERT_X509_GUID := sampleX509
  CERT_SHA256_GUID := sampleSHA256
  EFI_CERT_TYPE_RSA2048_SHA256_GUID := sampleRSA2048
  EFI_CERT_TYPE_PKCS7_GUID := samplePKCS7
  ValidEFISignatureSchemes := [(sampleSHA256, "SHA256"), (sampleX509, "X509")]
  WINCertTypeString := [(0x0002, "WIN_CERT_TYPE_PKCS_SIGNED_DATA"), (0x0ef1, "WIN_CERT_TYPE_EFI_GUID")]
  guidFormat := sampleGuidFormat
  timeFormat := fun _ => "2021-03-14 15:09:26"
  ParseCertificate := sampleParseCertificate
  issuerString := fun _ => "CN=Sample CA"
  ReadFile := sampleReadFile
  ReadEfivarsFile := sampleReadEfivarsFile
  ReadSignatureDatabase := sampleReadSignatureDatabase
  ReadEFIVariableAuthencation2 := sampleReadEFIVariableAuthencation2
  GetSignatureDataDirectory := sampleGetSignatureDataDirectory
  GetSignatures := fun _ => CallResult.ok []
  ParseSignature := fun _ => some []

/-! ## The file writes of a report, stated on the input -/

/-- The `os.WriteFile` call an entry gives rise to: for an entry of an X.509
list whose data parses, the certificate's raw bytes under its decimal serial
number with mode 0644; none otherwise. -/
def certificateWrite (env : Env) (sig : SignatureList) (e : SignatureData) : List Event :=
  if sig.SignatureType = env.CERT_X509_GUID then
    match env.ParseCertificate e.Data with
    | Except.ok cert => [Event.WriteFile (bigIntString cert.SerialNumber) cert.Raw 0o644]
    | Except.error _ => []
  else []

/-- The `os.WriteFile` calls of a whole database, in list and entry order. -/
def certificateWrites (env : Env) (siglist : List SignatureList) : List Event :=
  siglist.flatMap (fun sig => sig.Signatures.flatMap (certificateWrite env sig))

/-! ## Append lemmas: a function only extends the trace it is given -/

theorem foldl_trace {α : Type} (f : Trace → α → Trace)
    (h : ∀ t x, f t x = t ++ f [] x) (xs : List α) (t : Trace) :
    xs.foldl f t = t ++ xs.flatMap (f []) := by
  induction xs generalizing t with
  | nil => simp
  | cons x xs ih =>
    rw [List.foldl_cons, ih, h t x]
    simp [List.flatMap_cons, List.append_assoc]

theorem sigEntry_eq (env : Env) (sig : SignatureList) (t : Trace) (e : SignatureData) :
    FormatSignatureList.sigEntry env sig t e =
      t ++ FormatSignatureList.sigEntry env sig [] e := by
  unfold FormatSignatureList.sigEntry
  by_cases hx : sig.SignatureType = env.CERT_X509_GUID
  · cases hp : env.ParseCertificate e.Data <;> simp [hx, hp]
  · by_cases hs : sig.SignatureType = env.CERT_SHA256_GUID
    · simp only [if_neg hx, if_pos hs]
      simp
    · simp only [if_neg hx, if_neg hs]
      simp

theorem sig_nil (env : Env) (sig : SignatureList) :
    FormatSignatureList.sig env [] sig =
      listHeader env sig ++ sig.Signatures.flatMap (FormatSignatureList.sigEntry env sig []) := by
  unfold FormatSignatureList.sig
  simp only [List.nil_append]
  rw [foldl_trace _ (sigEntry_eq env sig)]
  rfl

theorem sig_eq (env : Env) (t : Trace) (sig : SignatureList) :
    FormatSignatureList.sig env t sig = t ++ FormatSignatureList.sig env [] sig := by
  unfold FormatSignatureList.sig
  simp only [List.nil_append]
  rw [foldl_trace _ (sigEntry_eq env sig), foldl_trace _ (sigEntry_eq env sig)]
  simp [List.append_assoc]

theorem FormatSignatureList_eq (env : Env) (t : Trace) (siglist : List SignatureList) :
    FormatSignatureList env t siglist =
      t ++ countLine siglist.length :: siglist.flatMap (FormatSignatureList.sig env []) := by
  unfold FormatSignatureList
  simp only []
  rw [foldl_trace _ (sig_eq env)]
  simp [countLine, List.append_assoc]

/-! ## What the inner loop body emits, case by case -/

theorem sigEntry_x509_ok (env : Env) (sig : SignatureList) (e : SignatureData)
    (cert : Certificate) (hx : sig.SignatureType = env.CERT_X509_GUID)
    (hp : env.ParseCertificate e.Data = Except.ok cert) :
    FormatSignatureList.sigEntry env sig [] e =
      [ownerLine env e,
       Event.Printf "\t\tIssuer: %s\n" [Arg.str cert.Issuer],
       Event.Printf "\t\tSerial Number: %d\n" [Arg.big cert.SerialNumber],
       Event.WriteFile (bigIntString cert.SerialNumber) cert.Raw 0o644] := by
  simp [FormatSignatureList.sigEntry, hx, hp, ownerLine]

theorem sigEntry_x509_error (env : Env) (sig : SignatureList) (e : SignatureData)
    (msg : String) (hx : sig.SignatureType = env.CERT_X509_GUID)
    (hp : env.ParseCertificate e.Data = Except.error msg) :
    FormatSignatureList.sigEntry env sig [] e = [ownerLine env e] := by
  simp [FormatSignatureList.sigEntry, hx, hp, ownerLine]

theorem sigEntry_sha256 (env : Env) (sig : SignatureList) (e : SignatureData)
    (hx : sig.SignatureType ≠ env.CERT_X509_GUID)
    (hs : sig.SignatureType = env.CERT_SHA256_GUID) :
    FormatSignatureList.sigEntry env sig [] e =
      [ownerLine env e,
       Event.Printf "\t\tType: %s\n" [Arg.str "SHA256"],
       Event.Printf "\t\tChecksum: %x\n" [Arg.bytes e.Data]] := by
  unfold FormatSignatureList.sigEntry
  simp only [if_neg hx, if_pos hs]
  simp [ownerLine]

theorem sigEntry_other (env : Env) (sig : SignatureList) (e : SignatureData)
    (hx : sig.SignatureType ≠ env.CERT_X509_GUID)
    (hs : sig.SignatureType ≠ env.CERT_SHA256_GUID) :
    FormatSignatureList.sigEntry env sig [] e =
      [ownerLine env e,
       Event.Println [Arg.str "Not implemented!"],
       Event.Println [Arg.str (env.guidFormat sig.SignatureType)]] := by
  unfold FormatSignatureList.sigEntry
  simp only [if_neg hx, if_neg hs]
  simp [ownerLine]

theorem sigEntry_cases (env : Env) (sig : SignatureList) (e : SignatureData) :
    ∃ detail, FormatSignatureList.sigEntry env sig [] e = ownerLine env e :: detail ∧
      detail.filter isOwnerLine = [] ∧ detail.filter isFatal = [] := by
  by_cases hx : sig.SignatureType = env.CERT_X509_GUID
  · cases hp : env.ParseCertificate e.Data with
    | error msg => exact ⟨_, sigEntry_x509_error env sig e msg hx hp, rfl, rfl⟩
    | ok cert => exact ⟨_, sigEntry_x509_ok env sig e cert hx hp, rfl, rfl⟩
  · by_cases hs : sig.SignatureType = env.CERT_SHA256_GUID
    · exact ⟨_, sigEntry_sha256 env sig e hx hs, rfl, rfl⟩
    · exact ⟨_, sigEntry_other env sig e hx hs, rfl, rfl⟩

theorem flatMap_filter_eq {α : Type} (p : Event → Bool) (f : α → List Event)
    (g : α → List Event) (h : ∀ x, (f x).filter p = g x) (xs : List α) :
    (xs.flatMap f).filter p = xs.flatMap g := by
  induction xs with
  | nil => rfl
  | cons x xs ih => simp [List.flatMap_cons, List.filter_append, h, ih]

theorem sigEntry_owner (env : Env) (sig : SignatureList) (e : SignatureData) :
    (FormatSignatureList.sigEntry env sig [] e).filter isOwnerLine = [ownerLine env e] := by
  obtain ⟨detail, h, hd, _⟩ := sigEntry_cases env sig e
  rw [h]
  simp [List.filter_cons, hd, ownerLine, isOwnerLine]

theorem sig_owner (env : Env) (sig : SignatureList) :
    (FormatSignatureList.sig env [] sig).filter isOwnerLine =
      sig.Signatures.map (ownerLine env) := by
  rw [sig_nil, List.filter_append,
    flatMap_filter_eq isOwnerLine _ (fun e => [ownerLine env e]) (sigEntry_owner env sig)]
  have : (listHeader env sig).filter isOwnerLine = [] := rfl
  rw [this]
  induction sig.Signatures with
  | nil => rfl
  | cons e es ih => simpa [List.flatMap_cons] using ih

/-! ### Helper lemmas on `log.Fatal` and `os.WriteFile` events -/

theorem flatMap_nil_const {α β : Type} (xs : List α) :
    xs.flatMap (fun _ => ([] : List β)) = [] := by
  induction xs with
  | nil => rfl
  | cons x xs ih => simp [List.flatMap_cons, ih]

theorem sigEntry_fatal (env : Env) (sig : SignatureList) (e : SignatureData) :
    (FormatSignatureList.sigEntry env sig [] e).filter isFatal = [] := by
  obtain ⟨detail, h, _, hf⟩ := sigEntry_cases env sig e
  rw [h]
  simp [List.filter_cons, hf, ownerLine, isFatal]

theorem sig_fatal (env : Env) (sig : SignatureList) :
    (FormatSignatureList.sig env [] sig).filter isFatal = [] := by
  rw [sig_nil, List.filter_append,
    flatMap_filter_eq isFatal _ (fun _ => []) (sigEntry_fatal env sig), flatMap_nil_const]
  rfl

theorem FormatSignatureList_fatal (env : Env) (t : Trace) (siglist : List SignatureList) :
    (FormatSignatureList env t siglist).filter isFatal = t.filter isFatal := by
  rw [FormatSignatureList_eq, List.filter_append, List.filter_cons,
    flatMap_filter_eq isFatal _ (fun _ => []) (sig_fatal env), flatMap_nil_const]
  simp [countLine, isFatal]

theorem sigEntry_write (env : Env) (sig : SignatureList) (e : SignatureData) :
    (FormatSignatureList.sigEntry env sig [] e).filter isWrite = certificateWrite env sig e := by
  unfold certificateWrite
  by_cases hx : sig.SignatureType = env.CERT_X509_GUID
  · cases hp : env.ParseCertificate e.Data with
    | error msg => rw [sigEntry_x509_error env sig e msg hx hp, if_pos hx]; rfl
    | ok cert => rw [sigEntry_x509_ok env sig e cert hx hp, if_pos hx]; rfl
  · rw [if_neg hx]
    by_cases hs : sig.SignatureType = env.CERT_SHA256_GUID
    · rw [sigEntry_sha256 env sig e hx hs]; rfl
    · rw [sigEntry_other env sig e hx hs]; rfl

theorem sig_write (env : Env) (sig : SignatureList) :
    (FormatSignatureList.sig env [] sig).filter isWrite =
      sig.Signatures.flatMap (certificateWrite env sig) := by
  rw [sig_nil, List.filter_append,
    flatMap_filter_eq isWrite _ (certificateWrite env sig) (sigEntry_write env sig)]
  rfl

theorem FormatSignatureList_write (env : Env) (t : Trace) (siglist : List SignatureList) :
    (FormatSignatureList env t siglist).filter isWrite =
      t.filter isWrite ++ certificateWrites env siglist := by
  rw [FormatSignatureList_eq, List.filter_append, List.filter_cons,
    flatMap_filter_eq isWrite _ _ (sig_write env)]
  simp [countLine, isWrite, certificateWrites]

/-- The trace of `FormatSignatureList` around one list of the database. -/
theorem FormatSignatureList_split (env : Env) (t : Trace) (before after : List SignatureList)
    (sig : SignatureList) :
    FormatSignatureList env t (before ++ sig :: after) =
      t ++ countLine (before ++ sig :: after).length ::
        (before.flatMap (FormatSignatureList.sig env []) ++
          (listHeader env sig ++
            sig.Signatures.flatMap (FormatSignatureList.sigEntry env sig [])) ++
          after.flatMap (FormatSignatureList.sig env [])) := by
  rw [FormatSignatureList_eq, List.flatMap_append, List.flatMap_cons, sig_nil]
  simp [List.append_assoc]

/-- The entry body reads the certificate parser at the entry's own data only. -/
theorem sigEntry_parser_local (env : Env) (parse : Bytes → Except String Certificate)
    (sig : SignatureList) (e : SignatureData)
    (h : parse e.Data = env.ParseCertificate e.Data) :
    FormatSignatureList.sigEntry { env with ParseCertificate := parse } sig [] e =
      FormatSignatureList.sigEntry env sig [] e := by
  simp only [FormatSignatureList.sigEntry, h]

theorem sig_parser_local (env : Env) (parse : Bytes → Except String Certificate)
    (sig : SignatureList)
    (h : ∀ e ∈ sig.Signatures, parse e.Data = env.ParseCertificate e.Data) :
    FormatSignatureList.sig { env with ParseCertificate := parse } [] sig =
      FormatSignatureList.sig env [] sig := by
  rw [sig_nil, sig_nil]
  congr 1
  exact List.flatMap_congr (fun e he => sigEntry_parser_local env parse sig e (h e he))

/-! ### Helper lemmas on the handlers -/

theorem FormatEFIVariableAuth2_eq (env : Env) (t : Trace) (sig : EFIVariableAuthentication2) :
    FormatEFIVariableAuth2 env t sig = t ++ FormatEFIVariableAuth2 env [] sig := by
  unfold FormatEFIVariableAuth2
  by_cases h1 : sig.AuthInfo.CertType = env.EFI_CERT_TYPE_RSA2048_SHA256_GUID
  · simp only [if_pos h1]
    simp
  · by_cases h2 : sig.AuthInfo.CertType = env.EFI_CERT_TYPE_PKCS7_GUID
    · simp only [if_neg h1, if_pos h2]
      simp
    · simp only [if_neg h1, if_neg h2]
      simp

theorem FormatEFIVariableAuth2_nil (env : Env) (sig : EFIVariableAuthentication2) :
    FormatEFIVariableAuth2 env [] sig =
      [Event.Println [Arg.str "EFI Authentication Variable"],
       Event.Printf "\tEFI Signing Time: %s\n" [Arg.str (env.timeFormat sig.Time)],
       Event.Println [Arg.str "\tWINCertificate Info"],
       Event.Println [Arg.str "\t\tHeader:"],
       Event.Printf "\t\t\tLength %d\n" [Arg.int sig.AuthInfo.Header.Length],
       Event.Printf "\t\t\tRevision: 0x%x (should be 0x200) \n"
         [Arg.int sig.AuthInfo.Header.Revision],
       Event.Printf "\t\t\tCertType: %s\n"
         [Arg.str (mapIndex env.WINCertTypeString sig.AuthInfo.Header.CertType)],
       Event.Printf "\t\tCertificate Type: " []] ++
      (if sig.AuthInfo.CertType = env.EFI_CERT_TYPE_RSA2048_SHA256_GUID then
        [Event.Println [Arg.str "RSA2048 SHA256"]]
      else if sig.AuthInfo.CertType = env.EFI_CERT_TYPE_PKCS7_GUID then
        [Event.Println [Arg.str "PKCS7"]]
      else []) := by
  unfold FormatEFIVariableAuth2
  by_cases h1 : sig.AuthInfo.CertType = env.EFI_CERT_TYPE_RSA2048_SHA256_GUID
  · simp only [if_pos h1]
    rfl
  · by_cases h2 : sig.AuthInfo.CertType = env.EFI_CERT_TYPE_PKCS7_GUID
    · simp only [if_neg h1, if_pos h2]
      rfl
    · simp only [if_neg h1, if_neg h2]
      rfl

theorem FormatEFIVariableAuth2_filter (env : Env) (sig : EFIVariableAuthentication2)
    (p : Event → Bool) (hp : ∀ format args, p (Event.Printf format args) = false)
    (hl : ∀ args, p (Event.Println args) = false) :
    (FormatEFIVariableAuth2 env [] sig).filter p = [] := by
  rw [FormatEFIVariableAuth2_nil]
  by_cases h1 : sig.AuthInfo.CertType = env.EFI_CERT_TYPE_RSA2048_SHA256_GUID
  · simp [if_pos h1, hp, hl]
  · by_cases h2 : sig.AuthInfo.CertType = env.EFI_CERT_TYPE_PKCS7_GUID
    · simp [if_neg h1, if_pos h2, hp, hl]
    · simp [if_neg h1, if_neg h2, hp, hl]

theorem ParseKeyDb_error (env : Env) (filename err : String)
    (h : (env.ReadSignatureDatabase (env.ReadEfivarsFile filename).2.1).1 = CallResult.error err) :
    ParseKeyDb env filename =
      Run.mk [Event.ReadEfivarsFile filename,
        Event.ReadSignatureDatabase (env.ReadEfivarsFile filename).2.1,
        Event.Fatal err] (Outcome.exited 1) := by
  simp [ParseKeyDb, h]

theorem ParseKeyDb_ok (env : Env) (filename : String) (siglist : List SignatureList)
    (h : (env.ReadSignatureDatabase (env.ReadEfivarsFile filename).2.1).1 = CallResult.ok siglist) :
    ParseKeyDb env filename =
      Run.mk ([Event.ReadEfivarsFile filename,
        Event.ReadSignatureDatabase (env.ReadEfivarsFile filename).2.1] ++
        FormatSignatureList env [] siglist) Outcome.returned := by
  simp only [ParseKeyDb, h]
  rw [FormatSignatureList_eq, FormatSignatureList_eq]
  simp

theorem ParseSignatureList_error (env : Env) (filename err : String)
    (h : (env.ReadSignatureDatabase (NewReader (env.ReadFile filename).1)).1 = CallResult.error err) :
    ParseSignatureList env filename =
      Run.mk [Event.ReadFile filename,
        Event.ReadSignatureDatabase (NewReader (env.ReadFile filename).1),
        Event.Fatal err] (Outcome.exited 1) := by
  simp [ParseSignatureList, h]

theorem ParseSignatureList_ok (env : Env) (filename : String) (siglist : List SignatureList)
    (h : (env.ReadSignatureDatabase (NewReader (env.ReadFile filename).1)).1 = CallResult.ok siglist) :
    ParseSignatureList env filename =
      Run.mk ([Event.ReadFile filename,
        Event.ReadSignatureDatabase (NewReader (env.ReadFile filename).1)] ++
        FormatSignatureList env [] siglist) Outcome.returned := by
  simp only [ParseSignatureList, h]
  rw [FormatSignatureList_eq, FormatSignatureList_eq]
  simp

theorem ParseEFIAuthVariable_auth_error (env : Env) (filename err : String)
    (h : (env.ReadEFIVariableAuthencation2 (NewReader (env.ReadFile filename).1)).1 =
      CallResult.error err) :
    ParseEFIAuthVariable env filename =
      Run.mk [Event.ReadFile filename,
        Event.ReadEFIVariableAuthencation2 (NewReader (env.ReadFile filename).1),
        Event.Fatal err] (Outcome.exited 1) := by
  unfold ParseEFIAuthVariable
  cases hr : env.ReadEFIVariableAuthencation2 (NewReader (env.ReadFile filename).1) with
  | mk res reader =>
    rw [hr] at h
    simp only at h
    subst h
    simp [hr]

theorem ParseEFIAuthVariable_db_error (env : Env) (filename err : String)
    (sig : EFIVariableAuthentication2) (reader : Reader)
    (ha : env.ReadEFIVariableAuthencation2 (NewReader (env.ReadFile filename).1) =
      (CallResult.ok sig, reader))
    (h : (env.ReadSignatureDatabase reader).1 = CallResult.error err) :
    ParseEFIAuthVariable env filename =
      Run.mk ([Event.ReadFile filename,
        Event.ReadEFIVariableAuthencation2 (NewReader (env.ReadFile filename).1)] ++
        FormatEFIVariableAuth2 env [] sig ++
        [Event.ReadSignatureDatabase reader, Event.Fatal err]) (Outcome.exited 1) := by
  unfold ParseEFIAuthVariable
  simp only [ha, h]
  rw [FormatEFIVariableAuth2_eq]
  simp

theorem ParseEFIAuthVariable_ok (env : Env) (filename : String)
    (sig : EFIVariableAuthentication2) (reader : Reader) (siglist : List SignatureList)
    (ha : env.ReadEFIVariableAuthencation2 (NewReader (env.ReadFile filename).1) =
      (CallResult.ok sig, reader))
    (h : (env.ReadSignatureDatabase reader).1 = CallResult.ok siglist) :
    ParseEFIAuthVariable env filename =
      Run.mk ([Event.ReadFile filename,
        Event.ReadEFIVariableAuthencation2 (NewReader (env.ReadFile filename).1)] ++
        FormatEFIVariableAuth2 env [] sig ++
        Event.ReadSignatureDatabase reader :: FormatSignatureList env [] siglist)
        Outcome.returned := by
  unfold ParseEFIAuthVariable
  simp only [ha, h]
  rw [FormatEFIVariableAuth2_eq, FormatSignatureList_eq, FormatSignatureList_eq]
  simp

theorem ParseKeyDb_panic (env : Env) (filename : String)
    (h : (env.ReadSignatureDatabase (env.ReadEfivarsFile filename).2.1).1 = CallResult.panic) :
    ParseKeyDb env filename =
      Run.mk [Event.ReadEfivarsFile filename,
        Event.ReadSignatureDatabase (env.ReadEfivarsFile filename).2.1] Outcome.panicked := by
  simp [ParseKeyDb, h]

theorem ParseSignatureList_panic (env : Env) (filename : String)
    (h : (env.ReadSignatureDatabase (NewReader (env.ReadFile filename).1)).1 = CallResult.panic) :
    ParseSignatureList env filename =
      Run.mk [Event.ReadFile filename,
        Event.ReadSignatureDatabase (NewReader (env.ReadFile filename).1)] Outcome.panicked := by
  simp [ParseSignatureList, h]

theorem ParseEFIAuthVariable_auth_panic (env : Env) (filename : String)
    (h : (env.ReadEFIVariableAuthencation2 (NewReader (env.ReadFile filename).1)).1 =
      CallResult.panic) :
    ParseEFIAuthVariable env filename =
      Run.mk [Event.ReadFile filename,
        Event.ReadEFIVariableAuthencation2 (NewReader (env.ReadFile filename).1)]
        Outcome.panicked := by
  unfold ParseEFIAuthVariable
  cases hr : env.ReadEFIVariableAuthencation2 (NewReader (env.ReadFile filename).1) with
  | mk res reader =>
    rw [hr] at h
    simp only at h
    subst h
    simp [hr]

theorem ParseEFIAuthVariable_db_panic (env : Env) (filename : String)
    (sig : EFIVariableAuthentication2) (reader : Reader)
    (ha : env.ReadEFIVariableAuthencation2 (NewReader (env.ReadFile filename).1) =
      (CallResult.ok sig, reader))
    (h : (env.ReadSignatureDatabase reader).1 = CallResult.panic) :
    ParseEFIAuthVariable env filename =
      Run.mk ([Event.ReadFile filename,
        Event.ReadEFIVariableAuthencation2 (NewReader (env.ReadFile filename).1)] ++
        FormatEFIVariableAuth2 env [] sig ++
        [Event.ReadSignatureDatabase reader]) Outcome.panicked := by
  unfold ParseEFIAuthVariable
  simp only [ha, h]
  rw [FormatEFIVariableAuth2_eq]
  simp

theorem FormatEFIVariableAuth2_count (env : Env) (sig : EFIVariableAuthentication2) :
    (FormatEFIVariableAuth2 env [] sig).filter isCountLine = [] := by
  rw [FormatEFIVariableAuth2_nil]
  by_cases h1 : sig.AuthInfo.CertType = env.EFI_CERT_TYPE_RSA2048_SHA256_GUID
  · rw [if_pos h1]; rfl
  · by_cases h2 : sig.AuthInfo.CertType = env.EFI_CERT_TYPE_PKCS7_GUID
    · rw [if_neg h1, if_pos h2]; rfl
    · rw [if_neg h1, if_neg h2]; rfl

theorem certificateWrites_nil (env : Env) (siglist : List SignatureList)
    (h : ∀ sig ∈ siglist, sig.SignatureType = env.CERT_X509_GUID →
      ∀ e ∈ sig.Signatures, ∃ msg, env.ParseCertificate e.Data = Except.error msg) :
    certificateWrites env siglist = [] := by
  unfold certificateWrites
  rw [List.flatMap_congr (g := fun _ => ([] : List Event)), flatMap_nil_const]
  intro sig hsig
  rw [List.flatMap_congr (g := fun _ => ([] : List Event)), flatMap_nil_const]
  intro e he
  unfold certificateWrite
  by_cases hx : sig.SignatureType = env.CERT_X509_GUID
  · obtain ⟨msg, hm⟩ := h sig hsig hx e he
    simp [hx, hm]
  · simp [hx]

/-! ## Properties of the program -/

/-- C1: a certificate that fails to parse does not abort `FormatSignatureList`.
For an X.509 list `sig` of the database with an entry `bad` whose data fails
to parse: the function emits no `log.Fatal` and returns the whole report, in
which `bad` contributes its 'Signature Owner' line and every other entry of
`sig` and every other list its own rendering; and under any certificate parser
that agrees with the real one on the data of the other entries (so also one
under which `bad` parses) the report differs in the rendering of `bad` alone.
An entry of `sig` whose own certificate parses is rendered as its owner line,
its Issuer and Serial Number lines and the write of the certificate. -/
theorem FormatSignatureList_bad_certificate_continues (env : Env) (t : Trace)
    (before after : List SignatureList) (sig : SignatureList)
    (es1 es2 : List SignatureData) (bad : SignatureData) (msg : String)
    (hx : sig.SignatureType = env.CERT_X509_GUID)
    (hs : sig.Signatures = es1 ++ bad :: es2)
    (hp : env.ParseCertificate bad.Data = Except.error msg) :
    FormatSignatureList env t (before ++ sig :: after) =
        t ++ countLine (before ++ sig :: after).length ::
          (before.flatMap (FormatSignatureList.sig env []) ++
            (listHeader env sig ++
              (es1.flatMap (FormatSignatureList.sigEntry env sig []) ++
                ownerLine env bad ::
                es2.flatMap (FormatSignatureList.sigEntry env sig []))) ++
            after.flatMap (FormatSignatureList.sig env []))
    ∧ (FormatSignatureList env t (before ++ sig :: after)).filter isFatal = t.filter isFatal
    ∧ (∀ parse : Bytes → Except String Certificate,
        (∀ s ∈ before ++ after, ∀ e ∈ s.Signatures, parse e.Data = env.ParseCertificate e.Data) →
        (∀ e ∈ es1 ++ es2, parse e.Data = env.ParseCertificate e.Data) →
        FormatSignatureList { env with ParseCertificate := parse } t (before ++ sig :: after) =
          t ++ countLine (before ++ sig :: after).length ::
            (before.flatMap (FormatSignatureList.sig env []) ++
              (listHeader env sig ++
                (es1.flatMap (FormatSignatureList.sigEntry env sig []) ++
                  FormatSignatureList.sigEntry { env with ParseCertificate := parse } sig [] bad ++
                  es2.flatMap (FormatSignatureList.sigEntry env sig []))) ++
              after.flatMap (FormatSignatureList.sig env [])))
    ∧ (∀ (e : SignatureData) (cert : Certificate),
        env.ParseCertificate e.Data = Except.ok cert →
        FormatSignatureList.sigEntry env sig [] e =
          [ownerLine env e,
           Event.Printf "\t\tIssuer: %s\n" [Arg.str cert.Issuer],
           Event.Printf "\t\tSerial Number: %d\n" [Arg.big cert.SerialNumber],
           Event.WriteFile (bigIntString cert.SerialNumber) cert.Raw 0o644]) := by
  refine ⟨?_, FormatSignatureList_fatal env t _, ?_, ?_⟩
  · rw [FormatSignatureList_split, hs, List.flatMap_append, List.flatMap_cons,
      sigEntry_x509_error env sig bad msg hx hp]
    rfl
  · intro parse hother hsame
    rw [FormatSignatureList_split, hs, List.flatMap_append, List.flatMap_cons]
    have hb : before.flatMap (FormatSignatureList.sig { env with ParseCertificate := parse } []) =
        before.flatMap (FormatSignatureList.sig env []) :=
      List.flatMap_congr (fun s hsb =>
        sig_parser_local env parse s (hother s (List.mem_append_left _ hsb)))
    have ha : after.flatMap (FormatSignatureList.sig { env with ParseCertificate := parse } []) =
        after.flatMap (FormatSignatureList.sig env []) :=
      List.flatMap_congr (fun s hsa =>
        sig_parser_local env parse s (hother s (List.mem_append_right _ hsa)))
    have h1 : es1.flatMap
        (FormatSignatureList.sigEntry { env with ParseCertificate := parse } sig []) =
        es1.flatMap (FormatSignatureList.sigEntry env sig []) :=
      List.flatMap_congr (fun e he =>
        sigEntry_parser_local env parse sig e (hsame e (List.mem_append_left _ he)))
    have h2 : es2.flatMap
        (FormatSignatureList.sigEntry { env with ParseCertificate := parse } sig []) =
        es2.flatMap (FormatSignatureList.sigEntry env sig []) :=
      List.flatMap_congr (fun e he =>
        sigEntry_parser_local env parse sig e (hsame e (List.mem_append_right _ he)))
    rw [hb, ha, h1, h2]
    simp only [List.append_assoc]
    rfl
  · intro e cert hok
    exact sigEntry_x509_ok env sig e cert hx hok

/-- C1, at a concrete input: a database of a SHA-256 list, an X.509 list whose
second entry does not parse, and a list of unknown type; and the same database
under a parser that accepts the second entry. -/
theorem FormatSignatureList_bad_certificate_continues_witness :
    sampleX509List.SignatureType = sampleEnv.CERT_X509_GUID
    ∧ sampleX509List.Signatures = [sampleGoodEntry] ++ sampleBadEntry :: [sampleLateEntry]
    ∧ sampleEnv.ParseCertificate sampleBadEntry.Data = Except.error "x509: malformed certificate"
    ∧ FormatSignatureList sampleEnv [] ([sampleSHA256List] ++ sampleX509List :: [sampleUnknownList]) =
        [] ++ countLine ([sampleSHA256List] ++ sampleX509List :: [sampleUnknownList]).length ::
          ([sampleSHA256List].flatMap (FormatSignatureList.sig sampleEnv []) ++
            (listHeader sampleEnv sampleX509List ++
              ([sampleGoodEntry].flatMap (FormatSignatureList.sigEntry sampleEnv sampleX509List []) ++
                ownerLine sampleEnv sampleBadEntry ::
                [sampleLateEntry].flatMap
                  (FormatSignatureList.sigEntry sampleEnv sampleX509List []))) ++
            [sampleUnknownList].flatMap (FormatSignatureList.sig sampleEnv []))
    ∧ (FormatSignatureList sampleEnv []
        ([sampleSHA256List] ++ sampleX509List :: [sampleUnknownList])).filter isFatal = []
    ∧ sampleLenientParse sampleBadEntry.Data =
        Except.ok (Certificate.mk [0xff, 0, 0] "CN=Lenient CA" 5)
    ∧ FormatSignatureList { sampleEnv with ParseCertificate := sampleLenientParse } []
        ([sampleSHA256List] ++ sampleX509List :: [sampleUnknownList]) =
        [] ++ countLine ([sampleSHA256List] ++ sampleX509List :: [sampleUnknownList]).length ::
          ([sampleSHA256List].flatMap (FormatSignatureList.sig sampleEnv []) ++
            (listHeader sampleEnv sampleX509List ++
              ([sampleGoodEntry].flatMap (FormatSignatureList.sigEntry sampleEnv sampleX509List []) ++
                FormatSignatureList.sigEntry
                  { sampleEnv with ParseCertificate := sampleLenientParse }
                  sampleX509List [] sampleBadEntry ++
                [sampleLateEntry].flatMap
                  (FormatSignatureList.sigEntry sampleEnv sampleX509List []))) ++
            [sampleUnknownList].flatMap (FormatSignatureList.sig sampleEnv []))
    ∧ FormatSignatureList.sigEntry sampleEnv sampleX509List [] sampleLateEntry =
        [Event.Printf "\tSignature Owner: %s\n" [Arg.str "11111111-2222-3333-4444-123456789abc"],
         Event.Printf "\t\tIssuer: %s\n" [Arg.str "CN=Sample CA"],
         Event.Printf "\t\tSerial Number: %d\n" [Arg.big 9],
         Event.WriteFile "9" [0x30, 9, 2] 0o644] :=
  have h := FormatSignatureList_bad_certificate_continues sampleEnv [] [sampleSHA256List]
    [sampleUnknownList] sampleX509List [sampleGoodEntry] [sampleLateEntry] sampleBadEntry
    "x509: malformed certificate" rfl rfl rfl
  have hother : ∀ s ∈ [sampleSHA256List] ++ [sampleUnknownList], ∀ e ∈ s.Signatures,
      sampleLenientParse e.Data = sampleEnv.ParseCertificate e.Data := by
    intro s hs e he
    simp only [List.cons_append, List.nil_append, List.mem_cons, List.mem_singleton,
      List.not_mem_nil, or_false] at hs
    rcases hs with rfl | rfl
    · simp only [sampleSHA256List, List.mem_cons, List.mem_singleton, List.not_mem_nil,
        or_false, or_self] at he
      subst he
      rfl
    · simp only [sampleUnknownList, List.mem_cons, List.mem_singleton, List.not_mem_nil,
        or_false] at he
      rcases he with rfl | rfl <;> rfl
  have hsame : ∀ e ∈ [sampleGoodEntry] ++ [sampleLateEntry],
      sampleLenientParse e.Data = sampleEnv.ParseCertificate e.Data := by
    intro e he
    simp only [List.cons_append, List.nil_append, List.mem_cons, List.mem_singleton,
      List.not_mem_nil, or_false] at he
    rcases he with rfl | rfl <;> rfl
  ⟨rfl, rfl, rfl, h.1, h.2.1, rfl, h.2.2.1 sampleLenientParse hother hsame, by decide⟩

/-- C2, refuted at a concrete input: the only entry of `sampleBadList`, an
X.509 list, does not parse, and the report holds nothing about that entry
beyond its 'Signature Owner' line: the report is the count line, the list
header and that one owner line. -/
theorem FormatSignatureList_bad_certificate_unreported :
    sampleBadList.SignatureType = sampleEnv.CERT_X509_GUID
    ∧ sampleBadList.Signatures = [sampleBadEntry]
    ∧ sampleEnv.ParseCertificate sampleBadEntry.Data = Except.error "x509: malformed certificate"
    ∧ FormatSignatureList.sigEntry sampleEnv sampleBadList [] sampleBadEntry =
        [Event.Printf "\tSignature Owner: %s\n" [Arg.str "11111111-2222-3333-4444-123456789abc"]]
    ∧ FormatSignatureList sampleEnv [] [sampleBadList] =
        [Event.Printf "\nNumber of Signatures in the Signature List: %d\n" [Arg.int 1],
         Event.Printf "\nSignature Type: %s\n" [Arg.str "X509"],
         Event.Printf "Signature List List Size : %d\n" [Arg.int 47],
         Event.Printf "Signature List Header Size : %d\n" [Arg.int 0],
         Event.Printf "Signature List Size : %d\n" [Arg.int 19],
         Event.Printf "Signature List Signature Header: %x (usually empty)\n" [Arg.bytes []],
         Event.Printf "Signature List Number of Signatures: %d\n" [Arg.int 1],
         Event.Printf "Signature List Signatures:\n" [],
         Event.Printf "\tSignature Owner: %s\n" [Arg.str "11111111-2222-3333-4444-123456789abc"]] :=
  ⟨rfl, rfl, rfl, by decide, by decide⟩

/-- C2, amended: for every entry of an X.509 list whose data fails to parse
as a certificate, what `FormatSignatureList` emits for the entry is exactly
its 'Signature Owner' line; the parse error is discarded and nothing about
the failure is printed. -/
theorem FormatSignatureList_bad_certificate_owner_only (env : Env) (sig : SignatureList)
    (t : Trace) (e : SignatureData) (msg : String)
    (hx : sig.SignatureType = env.CERT_X509_GUID)
    (hp : env.ParseCertificate e.Data = Except.error msg) :
    FormatSignatureList.sigEntry env sig t e =
      t ++ [Event.Printf "\tSignature Owner: %s\n" [Arg.str (env.guidFormat e.Owner)]] := by
  rw [sigEntry_eq, sigEntry_x509_error env sig e msg hx hp]
  rfl

/-- C2, amended, at a concrete input. -/
theorem FormatSignatureList_bad_certificate_owner_only_witness :
    sampleX509List.SignatureType = sampleEnv.CERT_X509_GUID
    ∧ sampleEnv.ParseCertificate sampleBadEntry.Data = Except.error "x509: malformed certificate"
    ∧ FormatSignatureList.sigEntry sampleEnv sampleX509List [countLine 1] sampleBadEntry =
        [countLine 1] ++
          [Event.Printf "\tSignature Owner: %s\n" [Arg.str (sampleEnv.guidFormat sampleBadEntry.Owner)]] :=
  ⟨rfl, rfl, FormatSignatureList_bad_certificate_owner_only sampleEnv sampleX509List
    [countLine 1] sampleBadEntry "x509: malformed certificate" rfl rfl⟩

/-- C3: `FormatSignatureList` preserves input order and neither sorts nor
deduplicates.  For every sequence of signature lists the trace is the count
line with the number of lists, then one block per list in input order, each
block being the list header followed by the entries in input order; every
entry opens with its 'Signature Owner' line and contributes no other one, so
the owner lines of the whole report are those of the entries, one each, in
input order; the empty sequence yields only the count line with 0. -/
theorem FormatSignatureList_preserves_order (env : Env) (t : Trace)
    (siglist : List SignatureList) :
    FormatSignatureList env t siglist =
        t ++ countLine siglist.length ::
          siglist.flatMap (fun sig =>
            listHeader env sig ++
              sig.Signatures.flatMap (FormatSignatureList.sigEntry env sig []))
    ∧ (∀ (sig : SignatureList) (e : SignatureData),
        ∃ detail, FormatSignatureList.sigEntry env sig [] e = ownerLine env e :: detail ∧
          detail.filter isOwnerLine = [])
    ∧ (∀ sig : SignatureList, (listHeader env sig).filter isOwnerLine = [])
    ∧ (FormatSignatureList env t siglist).filter isOwnerLine =
        t.filter isOwnerLine ++
          siglist.flatMap (fun sig => sig.Signatures.map (ownerLine env))
    ∧ FormatSignatureList env t [] = t ++ [countLine 0] := by
  refine ⟨?_, ?_, ?_, ?_, ?_⟩
  · rw [FormatSignatureList_eq]
    congr 2
    exact List.flatMap_congr (fun sig _ => sig_nil env sig) |>.trans rfl
  · intro sig e
    obtain ⟨detail, h, hd, _⟩ := sigEntry_cases env sig e
    exact ⟨detail, h, hd⟩
  · intro sig
    rfl
  · rw [FormatSignatureList_eq, List.filter_append, List.filter_cons,
      flatMap_filter_eq isOwnerLine _ _ (sig_owner env)]
    simp [countLine, isOwnerLine]
  · rw [FormatSignatureList_eq]
    rfl

/-- C3, at a concrete input: a SHA-256 list that holds the same entry twice is
reported with two owner lines, and the empty database with the count line alone. -/
theorem FormatSignatureList_preserves_order_witness :
    (FormatSignatureList sampleEnv [] [sampleSHA256List, sampleUnknownList]).filter isOwnerLine =
        [].filter isOwnerLine ++
          [sampleSHA256List, sampleUnknownList].flatMap
            (fun sig => sig.Signatures.map (ownerLine sampleEnv))
    ∧ [sampleSHA256List, sampleUnknownList].flatMap
          (fun sig => sig.Signatures.map (ownerLine sampleEnv)) =
        [Event.Printf "\tSignature Owner: %s\n" [Arg.str "77fa9abd-0359-4d32-bd60-28f4e78f784b"],
         Event.Printf "\tSignature Owner: %s\n" [Arg.str "77fa9abd-0359-4d32-bd60-28f4e78f784b"],
         Event.Printf "\tSignature Owner: %s\n" [Arg.str "77fa9abd-0359-4d32-bd60-28f4e78f784b"],
         Event.Printf "\tSignature Owner: %s\n" [Arg.str "11111111-2222-3333-4444-123456789abc"]]
    ∧ FormatSignatureList sampleEnv [] [] =
        [Event.Printf "\nNumber of Signatures in the Signature List: %d\n" [Arg.int 0]] :=
  ⟨(FormatSignatureList_preserves_order sampleEnv []
      [sampleSHA256List, sampleUnknownList]).2.2.2.1,
   by decide,
   (FormatSignatureList_preserves_order sampleEnv [] []).2.2.2.2⟩

/-- C4: a signature type the program does not know is never an error.  For a
list of the database whose `SignatureType` is neither CERT_X509_GUID nor
CERT_SHA256_GUID, whatever the `ValidEFISignatureSchemes` table holds for it,
`FormatSignatureList` emits no `log.Fatal` and returns the whole report, in
which every entry of that list is its owner line followed by 'Not implemented!'
and the formatted `SignatureType`. -/
theorem FormatSignatureList_unknown_type (env : Env) (t : Trace)
    (before after : List SignatureList) (sig : SignatureList)
    (hx : sig.SignatureType ≠ env.CERT_X509_GUID)
    (hs : sig.SignatureType ≠ env.CERT_SHA256_GUID) :
    FormatSignatureList env t (before ++ sig :: after) =
        t ++ countLine (before ++ sig :: after).length ::
          (before.flatMap (FormatSignatureList.sig env []) ++
            (listHeader env sig ++
              sig.Signatures.flatMap (fun e =>
                [Event.Printf "\tSignature Owner: %s\n" [Arg.str (env.guidFormat e.Owner)],
                 Event.Println [Arg.str "Not implemented!"],
                 Event.Println [Arg.str (env.guidFormat sig.SignatureType)]])) ++
            after.flatMap (FormatSignatureList.sig env []))
    ∧ (FormatSignatureList env t (before ++ sig :: after)).filter isFatal = t.filter isFatal := by
  refine ⟨?_, FormatSignatureList_fatal env t _⟩
  rw [FormatSignatureList_split,
    List.flatMap_congr (fun e _ => sigEntry_other env sig e hx hs)]
  rfl

/-- C4, at a concrete input: a list of unknown type after an X.509 list. -/
theorem FormatSignatureList_unknown_type_witness :
    sampleUnknownList.SignatureType ≠ sampleEnv.CERT_X509_GUID
    ∧ sampleUnknownList.SignatureType ≠ sampleEnv.CERT_SHA256_GUID
    ∧ FormatSignatureList sampleEnv [] ([sampleX509List] ++ sampleUnknownList :: []) =
        [] ++ countLine ([sampleX509List] ++ sampleUnknownList :: []).length ::
          ([sampleX509List].flatMap (FormatSignatureList.sig sampleEnv []) ++
            (listHeader sampleEnv sampleUnknownList ++
              sampleUnknownList.Signatures.flatMap (fun e =>
                [Event.Printf "\tSignature Owner: %s\n" [Arg.str (sampleEnv.guidFormat e.Owner)],
                 Event.Println [Arg.str "Not implemented!"],
                 Event.Println [Arg.str (sampleEnv.guidFormat sampleUnknownList.SignatureType)]])) ++
            [].flatMap (FormatSignatureList.sig sampleEnv []))
    ∧ FormatSignatureList.sig sampleEnv [] sampleUnknownList =
        [Event.Printf "\nSignature Type: %s\n" [Arg.str ""],
         Event.Printf "Signature List List Size : %d\n" [Arg.int 66],
         Event.Printf "Signature List Header Size : %d\n" [Arg.int 0],
         Event.Printf "Signature List Size : %d\n" [Arg.int 19],
         Event.Printf "Signature List Signature Header: %x (usually empty)\n" [Arg.bytes []],
         Event.Printf "Signature List Number of Signatures: %d\n" [Arg.int 2],
         Event.Printf "Signature List Signatures:\n" [],
         Event.Printf "\tSignature Owner: %s\n" [Arg.str "77fa9abd-0359-4d32-bd60-28f4e78f784b"],
         Event.Println [Arg.str "Not implemented!"],
         Event.Println [Arg.str "04030201-0605-0807-090a-0b0c0d0e0f10"],
         Event.Printf "\tSignature Owner: %s\n" [Arg.str "11111111-2222-3333-4444-123456789abc"],
         Event.Println [Arg.str "Not implemented!"],
         Event.Println [Arg.str "04030201-0605-0807-090a-0b0c0d0e0f10"]] :=
  have h := FormatSignatureList_unknown_type sampleEnv [] [sampleX509List] [] sampleUnknownList
    (by decide) (by decide)
  ⟨by decide, by decide, h.1, by decide⟩

/-- C5, refuted at a concrete input: reporting `sampleX509List` calls
`os.WriteFile` twice, once for each entry whose certificate parses. -/
theorem FormatSignatureList_writes_files :
    (FormatSignatureList sampleEnv [] [sampleX509List]).filter isWrite =
      [Event.WriteFile "7" [0x30, 7, 1] 0o644, Event.WriteFile "9" [0x30, 9, 2] 0o644]
    ∧ ((ParseSignatureList sampleEnv "db.esl").trace.filter isWrite =
      [Event.WriteFile "7" [0x30, 7, 1] 0o644, Event.WriteFile "9" [0x30, 9, 2] 0o644]) := by
  decide

/-- C5, amended: the file-system effect of `FormatSignatureList` is one
`os.WriteFile` for each entry of an X.509 list whose data parses as a
certificate (the certificate's raw bytes, mode 0644, under the decimal text of
its serial number), in input order, and no other write; a database in which no
X.509 entry parses is reported without any write.  The writes of `ParseKeyDb`,
`ParseSignatureList` and `ParseEFIAuthVariable` are those of the database they
decode, and none when a decoder fails (with an error or a panic). -/
theorem FormatSignatureList_writes_only_certificates (env : Env) (t : Trace)
    (siglist : List SignatureList) (filename : String) :
    (FormatSignatureList env t siglist).filter isWrite =
        t.filter isWrite ++ certificateWrites env siglist
    ∧ ((∀ sig ∈ siglist, sig.SignatureType = env.CERT_X509_GUID →
          ∀ e ∈ sig.Signatures, ∃ msg, env.ParseCertificate e.Data = Except.error msg) →
        (FormatSignatureList env t siglist).filter isWrite = t.filter isWrite)
    ∧ (ParseKeyDb env filename).trace.filter isWrite =
        (match (env.ReadSignatureDatabase (env.ReadEfivarsFile filename).2.1).1 with
         | CallResult.ok db => certificateWrites env db
         | CallResult.error _ => []
         | CallResult.panic => [])
    ∧ (ParseSignatureList env filename).trace.filter isWrite =
        (match (env.ReadSignatureDatabase (NewReader (env.ReadFile filename).1)).1 with
         | CallResult.ok db => certificateWrites env db
         | CallResult.error _ => []
         | CallResult.panic => [])
    ∧ (ParseEFIAuthVariable env filename).trace.filter isWrite =
        (match env.ReadEFIVariableAuthencation2 (NewReader (env.ReadFile filename).1) with
         | (CallResult.ok _, reader) =>
           (match (env.ReadSignatureDatabase reader).1 with
            | CallResult.ok db => certificateWrites env db
            | CallResult.error _ => []
            | CallResult.panic => [])
         | (CallResult.error _, _) => []
         | (CallResult.panic, _) => []) := by
  refine ⟨FormatSignatureList_write env t siglist, ?_, ?_, ?_, ?_⟩
  · intro h
    rw [FormatSignatureList_write, certificateWrites_nil env siglist h, List.append_nil]
  · cases h : (env.ReadSignatureDatabase (env.ReadEfivarsFile filename).2.1).1 with
    | panic => rw [ParseKeyDb_panic env filename h]; rfl
    | error err => rw [ParseKeyDb_error env filename err h]; rfl
    | ok db =>
      rw [ParseKeyDb_ok env filename db h]
      simp only [List.filter_append, FormatSignatureList_write]
      rfl
  · cases h : (env.ReadSignatureDatabase (NewReader (env.ReadFile filename).1)).1 with
    | panic => rw [ParseSignatureList_panic env filename h]; rfl
    | error err => rw [ParseSignatureList_error env filename err h]; rfl
    | ok db =>
      rw [ParseSignatureList_ok env filename db h]
      simp only [List.filter_append, FormatSignatureList_write]
      rfl
  · cases ha : env.ReadEFIVariableAuthencation2 (NewReader (env.ReadFile filename).1) with
    | mk res reader =>
      cases res with
      | panic =>
        rw [ParseEFIAuthVariable_auth_panic env filename (by rw [ha])]
        rfl
      | error err =>
        rw [ParseEFIAuthVariable_auth_error env filename err (by rw [ha])]
        rfl
      | ok sig =>
        simp only
        cases h : (env.ReadSignatureDatabase reader).1 with
        | panic =>
          rw [ParseEFIAuthVariable_db_panic env filename sig reader ha h]
          simp only [List.filter_append,
            FormatEFIVariableAuth2_filter env sig isWrite (fun _ _ => rfl) (fun _ => rfl)]
          rfl
        | error err =>
          rw [ParseEFIAuthVariable_db_error env filename err sig reader ha h]
          simp only [List.filter_append,
            FormatEFIVariableAuth2_filter env sig isWrite (fun _ _ => rfl) (fun _ => rfl)]
          rfl
        | ok db =>
          rw [ParseEFIAuthVariable_ok env filename sig reader db ha h]
          simp only [List.filter_append, List.filter_cons, FormatSignatureList_write,
            FormatEFIVariableAuth2_filter env sig isWrite (fun _ _ => rfl) (fun _ => rfl)]
          rfl

/-- C5, amended, at a concrete input: a database whose only X.509 entry does
not parse is reported without a write. -/
theorem FormatSignatureList_writes_only_certificates_witness :
    (FormatSignatureList sampleEnv [] [sampleBadList, sampleSHA256List]).filter isWrite =
      [].filter isWrite
    ∧ certificateWrites sampleEnv [sampleX509List] =
      [Event.WriteFile "7" [0x30, 7, 1] 0o644, Event.WriteFile "9" [0x30, 9, 2] 0o644] :=
  ⟨(FormatSignatureList_writes_only_certificates sampleEnv []
      [sampleBadList, sampleSHA256List] "db.esl").2.1 (by
        intro sig hsig hx e he
        simp only [List.mem_cons, List.mem_singleton, List.not_mem_nil, or_false] at hsig
        rcases hsig with rfl | rfl
        · simp only [sampleBadList, List.mem_singleton] at he
          subst he
          exact ⟨"x509: malformed certificate", rfl⟩
        · exact absurd hx (by decide)),
   by decide⟩

/-- C6: a decoder error is fatal to the current decode.  When
`ReadSignatureDatabase` returns an error, `ParseKeyDb`, `ParseSignatureList` and
`ParseEFIAuthVariable` end in `log.Fatal` of that error with exit status 1 and
no count line of a signature-list report is printed; when
`ReadEFIVariableAuthencation2` returns an error, `ParseEFIAuthVariable` ends in
`log.Fatal` of that error having printed nothing and without a call of
`ReadSignatureDatabase`. -/
theorem decoder_error_is_fatal (env : Env) (filename err : String) :
    ((env.ReadSignatureDatabase (env.ReadEfivarsFile filename).2.1).1 = CallResult.error err →
      ParseKeyDb env filename =
        Run.mk [Event.ReadEfivarsFile filename,
          Event.ReadSignatureDatabase (env.ReadEfivarsFile filename).2.1,
          Event.Fatal err] (Outcome.exited 1)
      ∧ (ParseKeyDb env filename).trace.filter isPrint = [])
    ∧ ((env.ReadSignatureDatabase (NewReader (env.ReadFile filename).1)).1 = CallResult.error err →
      ParseSignatureList env filename =
        Run.mk [Event.ReadFile filename,
          Event.ReadSignatureDatabase (NewReader (env.ReadFile filename).1),
          Event.Fatal err] (Outcome.exited 1)
      ∧ (ParseSignatureList env filename).trace.filter isPrint = [])
    ∧ (∀ (sig : EFIVariableAuthentication2) (reader : Reader),
      env.ReadEFIVariableAuthencation2 (NewReader (env.ReadFile filename).1) =
        (CallResult.ok sig, reader) →
      (env.ReadSignatureDatabase reader).1 = CallResult.error err →
      ParseEFIAuthVariable env filename =
        Run.mk ([Event.ReadFile filename,
          Event.ReadEFIVariableAuthencation2 (NewReader (env.ReadFile filename).1)] ++
          FormatEFIVariableAuth2 env [] sig ++
          [Event.ReadSignatureDatabase reader, Event.Fatal err]) (Outcome.exited 1)
      ∧ (ParseEFIAuthVariable env filename).trace.filter isCountLine = [])
    ∧ ((env.ReadEFIVariableAuthencation2 (NewReader (env.ReadFile filename).1)).1 =
        CallResult.error err →
      ParseEFIAuthVariable env filename =
        Run.mk [Event.ReadFile filename,
          Event.ReadEFIVariableAuthencation2 (NewReader (env.ReadFile filename).1),
          Event.Fatal err] (Outcome.exited 1)) := by
  refine ⟨?_, ?_, ?_, ?_⟩
  · intro h
    rw [ParseKeyDb_error env filename err h]
    exact ⟨rfl, rfl⟩
  · intro h
    rw [ParseSignatureList_error env filename err h]
    exact ⟨rfl, rfl⟩
  · intro sig reader ha h
    rw [ParseEFIAuthVariable_db_error env filename err sig reader ha h]
    refine ⟨rfl, ?_⟩
    simp only [List.filter_append, FormatEFIVariableAuth2_count]
    rfl
  · intro h
    exact ParseEFIAuthVariable_auth_error env filename err h

/-- C6, at concrete inputs: an efivars file, a signature list and the tail of
an authenticated variable that do not decode, and an authenticated variable
whose header does not decode. -/
theorem decoder_error_is_fatal_witness :
    (sampleEnv.ReadSignatureDatabase (sampleEnv.ReadEfivarsFile "dbx").2.1).1 =
      CallResult.error "unexpected EOF"
    ∧ ParseKeyDb sampleEnv "dbx" =
        Run.mk [Event.ReadEfivarsFile "dbx", Event.ReadSignatureDatabase (Reader.stream [0xff]),
          Event.Fatal "unexpected EOF"] (Outcome.exited 1)
    ∧ (sampleEnv.ReadSignatureDatabase (NewReader (sampleEnv.ReadFile "bad.esl").1)).1 =
      CallResult.error "unexpected EOF"
    ∧ ParseSignatureList sampleEnv "bad.esl" =
        Run.mk [Event.ReadFile "bad.esl", Event.ReadSignatureDatabase (Reader.stream [0xff]),
          Event.Fatal "unexpected EOF"] (Outcome.exited 1)
    ∧ sampleEnv.ReadEFIVariableAuthencation2 (NewReader (sampleEnv.ReadFile "bad.auth").1) =
      (CallResult.ok sampleAuth, Reader.stream [0xff])
    ∧ (sampleEnv.ReadSignatureDatabase (Reader.stream [0xff])).1 = CallResult.error "unexpected EOF"
    ∧ ParseEFIAuthVariable sampleEnv "bad.auth" =
        Run.mk ([Event.ReadFile "bad.auth",
          Event.ReadEFIVariableAuthencation2 (NewReader (sampleEnv.ReadFile "bad.auth").1)] ++
          FormatEFIVariableAuth2 sampleEnv [] sampleAuth ++
          [Event.ReadSignatureDatabase (Reader.stream [0xff]), Event.Fatal "unexpected EOF"])
          (Outcome.exited 1)
    ∧ (ParseEFIAuthVariable sampleEnv "bad.auth").trace.filter isCountLine = []
    ∧ (sampleEnv.ReadEFIVariableAuthencation2 (NewReader (sampleEnv.ReadFile "junk.auth").1)).1 =
      CallResult.error "EOF"
    ∧ ParseEFIAuthVariable sampleEnv "junk.auth" =
        Run.mk [Event.ReadFile "junk.auth",
          Event.ReadEFIVariableAuthencation2 (NewReader (sampleEnv.ReadFile "junk.auth").1),
          Event.Fatal "EOF"] (Outcome.exited 1) :=
  ⟨rfl,
   ((decoder_error_is_fatal sampleEnv "dbx" "unexpected EOF").1 rfl).1,
   rfl,
   ((decoder_error_is_fatal sampleEnv "bad.esl" "unexpected EOF").2.1 rfl).1,
   rfl, rfl,
   ((decoder_error_is_fatal sampleEnv "bad.auth" "unexpected EOF").2.2.1
      sampleAuth (Reader.stream [0xff]) rfl rfl).1,
   ((decoder_error_is_fatal sampleEnv "bad.auth" "unexpected EOF").2.2.1
      sampleAuth (Reader.stream [0xff]) rfl rfl).2,
   rfl,
   (decoder_error_is_fatal sampleEnv "junk.auth" "EOF").2.2.2 rfl⟩

/-- C7: a WIN_CERTIFICATE Revision other than 0x0200 is reported, never fatal.
For every decoded authenticated variable, whatever its Revision,
`FormatEFIVariableAuth2` returns after its eight header prints and the print of
the certificate type, without a `log.Fatal`; the Revision print writes the
value in hexadecimal; and `ParseEFIAuthVariable` then calls
`ReadSignatureDatabase` on the reader as `ReadEFIVariableAuthencation2` left it
and, when that decodes, appends the signature-list report to the
authentication report (when it does not, the run ends there, in `log.Fatal` of
the decoder's error or in the decoder's panic). -/
theorem revision_mismatch_is_not_fatal (env : Env) (t : Trace)
    (sig : EFIVariableAuthentication2) (filename : String) :
    FormatEFIVariableAuth2 env t sig =
        t ++
        [Event.Println [Arg.str "EFI Authentication Variable"],
         Event.Printf "\tEFI Signing Time: %s\n" [Arg.str (env.timeFormat sig.Time)],
         Event.Println [Arg.str "\tWINCertificate Info"],
         Event.Println [Arg.str "\t\tHeader:"],
         Event.Printf "\t\t\tLength %d\n" [Arg.int sig.AuthInfo.Header.Length],
         Event.Printf "\t\t\tRevision: 0x%x (should be 0x200) \n"
           [Arg.int sig.AuthInfo.Header.Revision],
         Event.Printf "\t\t\tCertType: %s\n"
           [Arg.str (mapIndex env.WINCertTypeString sig.AuthInfo.Header.CertType)],
         Event.Printf "\t\tCertificate Type: " []] ++
        (if sig.AuthInfo.CertType = env.EFI_CERT_TYPE_RSA2048_SHA256_GUID then
          [Event.Println [Arg.str "RSA2048 SHA256"]]
        else if sig.AuthInfo.CertType = env.EFI_CERT_TYPE_PKCS7_GUID then
          [Event.Println [Arg.str "PKCS7"]]
        else [])
    ∧ (FormatEFIVariableAuth2 env t sig).filter isFatal = t.filter isFatal
    ∧ Sprintf "\t\t\tRevision: 0x%x (should be 0x200) \n" [Arg.int sig.AuthInfo.Header.Revision] =
        some ("\t\t\tRevision: 0x" ++ hexNat sig.AuthInfo.Header.Revision ++
          " (should be 0x200) \n")
    ∧ (∀ reader : Reader,
        env.ReadEFIVariableAuthencation2 (NewReader (env.ReadFile filename).1) =
          (CallResult.ok sig, reader) →
        ParseEFIAuthVariable env filename =
          (match (env.ReadSignatureDatabase reader).1 with
           | CallResult.ok siglist =>
             Run.mk ([Event.ReadFile filename,
               Event.ReadEFIVariableAuthencation2 (NewReader (env.ReadFile filename).1)] ++
               FormatEFIVariableAuth2 env [] sig ++
               Event.ReadSignatureDatabase reader :: FormatSignatureList env [] siglist)
               Outcome.returned
           | CallResult.error err =>
             Run.mk ([Event.ReadFile filename,
               Event.ReadEFIVariableAuthencation2 (NewReader (env.ReadFile filename).1)] ++
               FormatEFIVariableAuth2 env [] sig ++
               [Event.ReadSignatureDatabase reader, Event.Fatal err]) (Outcome.exited 1)
           | CallResult.panic =>
             Run.mk ([Event.ReadFile filename,
               Event.ReadEFIVariableAuthencation2 (NewReader (env.ReadFile filename).1)] ++
               FormatEFIVariableAuth2 env [] sig ++
               [Event.ReadSignatureDatabase reader]) Outcome.panicked)) := by
  refine ⟨?_, ?_, rfl, ?_⟩
  · rw [FormatEFIVariableAuth2_eq, FormatEFIVariableAuth2_nil, List.append_assoc]
  · rw [FormatEFIVariableAuth2_eq, List.filter_append,
      FormatEFIVariableAuth2_filter env sig isFatal (fun _ _ => rfl) (fun _ => rfl),
      List.append_nil]
  · intro reader ha
    cases h : (env.ReadSignatureDatabase reader).1 with
    | panic => exact ParseEFIAuthVariable_db_panic env filename sig reader ha h
    | error err => exact ParseEFIAuthVariable_db_error env filename err sig reader ha h
    | ok siglist => exact ParseEFIAuthVariable_ok env filename sig reader siglist ha h

/-- C7, at a concrete input: an authenticated variable with Revision 0x0100
followed by a signature database. -/
theorem revision_mismatch_is_not_fatal_witness :
    sampleAuth.AuthInfo.Header.Revision = 0x100
    ∧ sampleEnv.ReadEFIVariableAuthencation2 (NewReader (sampleEnv.ReadFile "db.auth").1) =
        (CallResult.ok sampleAuth, Reader.stream [1])
    ∧ (sampleEnv.ReadSignatureDatabase (Reader.stream [1])).1 =
        CallResult.ok [sampleX509List, sampleSHA256List]
    ∧ Sprintf "\t\t\tRevision: 0x%x (should be 0x200) \n"
        [Arg.int sampleAuth.AuthInfo.Header.Revision] =
        some "\t\t\tRevision: 0x100 (should be 0x200) \n"
    ∧ ParseEFIAuthVariable sampleEnv "db.auth" =
        Run.mk ([Event.ReadFile "db.auth",
          Event.ReadEFIVariableAuthencation2 (NewReader (sampleEnv.ReadFile "db.auth").1)] ++
          FormatEFIVariableAuth2 sampleEnv [] sampleAuth ++
          Event.ReadSignatureDatabase (Reader.stream [1]) ::
            FormatSignatureList sampleEnv [] [sampleX509List, sampleSHA256List])
          Outcome.returned :=
  ⟨rfl, rfl, rfl,
   (revision_mismatch_is_not_fatal sampleEnv [] sampleAuth "db.auth").2.2.1,
   (revision_mismatch_is_not_fatal sampleEnv [] sampleAuth "db.auth").2.2.2
     (Reader.stream [1]) rfl⟩

/-- C8: a zero-size certificate table is a valid success state.  When the read
of the image succeeds, `GetSignatureDataDirectory` succeeds with Size 0 and
`GetSignatures` returns the empty sequence and no error, `ParseEFIImage`
returns normally; its prints are exactly the data-directory header with the
Virtual Address and Size lines followed by 'No signatures', and it emits no
'Certificate Type' line and no `log.Fatal`. -/
theorem ParseEFIImage_zero_size_table (env : Env) (filename : String) (b : Bytes)
    (datadir : DataDirectory)
    (hread : env.ReadFile filename = (b, none))
    (hdir : env.GetSignatureDataDirectory b = CallResult.ok datadir)
    (hsize : datadir.Size = 0)
    (hsigs : env.GetSignatures b = CallResult.ok []) :
    ParseEFIImage env filename =
        Run.mk [Event.ReadFile filename,
          Event.GetSignatureDataDirectory b,
          Event.Println [Arg.str "Data Directory Header:"],
          Event.Printf "\tVirtual Address: 0x%x\n" [Arg.int datadir.VirtualAddress],
          Event.Printf "\tSize in bytes: %d\n" [Arg.int 0],
          Event.Println [Arg.str "No signatures"],
          Event.GetSignatures b] Outcome.returned
    ∧ (ParseEFIImage env filename).trace.filter isPrint =
        [Event.Println [Arg.str "Data Directory Header:"],
         Event.Printf "\tVirtual Address: 0x%x\n" [Arg.int datadir.VirtualAddress],
         Event.Printf "\tSize in bytes: %d\n" [Arg.int 0],
         Event.Println [Arg.str "No signatures"]]
    ∧ (ParseEFIImage env filename).trace.filter isFatal = [] := by
  have h : ParseEFIImage env filename =
      Run.mk [Event.ReadFile filename,
        Event.GetSignatureDataDirectory b,
        Event.Println [Arg.str "Data Directory Header:"],
        Event.Printf "\tVirtual Address: 0x%x\n" [Arg.int datadir.VirtualAddress],
        Event.Printf "\tSize in bytes: %d\n" [Arg.int 0],
        Event.Println [Arg.str "No signatures"],
        Event.GetSignatures b] Outcome.returned := by
    unfold ParseEFIImage
    simp only [hread, hdir, hsize, hsigs, if_true, ParseEFIImage.signatures]
    rfl
  rw [h]
  exact ⟨rfl, rfl, rfl⟩

/-- C8, at a concrete input: an image whose certificate table is empty. -/
theorem ParseEFIImage_zero_size_table_witness :
    sampleEnv.ReadFile "empty.efi" = ([0x4d, 0x5a], none)
    ∧ sampleEnv.GetSignatureDataDirectory [0x4d, 0x5a] = CallResult.ok (DataDirectory.mk 0 0)
    ∧ (DataDirectory.mk 0 0).Size = 0
    ∧ sampleEnv.GetSignatures [0x4d, 0x5a] = CallResult.ok []
    ∧ ParseEFIImage sampleEnv "empty.efi" =
        Run.mk [Event.ReadFile "empty.efi",
          Event.GetSignatureDataDirectory [0x4d, 0x5a],
          Event.Println [Arg.str "Data Directory Header:"],
          Event.Printf "\tVirtual Address: 0x%x\n" [Arg.int (DataDirectory.mk 0 0).VirtualAddress],
          Event.Printf "\tSize in bytes: %d\n" [Arg.int 0],
          Event.Println [Arg.str "No signatures"],
          Event.GetSignatures [0x4d, 0x5a]] Outcome.returned :=
  ⟨rfl, rfl, rfl, rfl,
   (ParseEFIImage_zero_size_table sampleEnv "empty.efi" [0x4d, 0x5a] (DataDirectory.mk 0 0)
     rfl rfl rfl rfl).1⟩

/-- C9: the dispatch of `main` is a function of its arguments.  With no
argument after the program name the run is `log.Fatalln` of 'Need type' and
with exactly one it is `log.Fatalln` of 'Need filename', in both cases with no
other event, so before any file is read; otherwise the first argument selects
one handler, run on the second argument: 'KEK', 'PK', 'db' and 'dbx' select
`ParseKeyDb`, 'siglist' selects `ParseSignatureList`, 'signed' selects
`ParseEFIAuthVariable`, 'signed-image' selects `ParseEFIImage`; and for every
other first argument the run has no event and returns normally. -/
theorem main_dispatch (env : Env) (prog : String) :
    main env [prog] = Run.mk [Event.Fatalln "Need type"] (Outcome.exited 1)
    ∧ (∀ efiType : String,
        main env [prog, efiType] = Run.mk [Event.Fatalln "Need filename"] (Outcome.exited 1))
    ∧ (∀ (file : String) (rest : List String),
        main env (prog :: "KEK" :: file :: rest) = ParseKeyDb env file
        ∧ main env (prog :: "PK" :: file :: rest) = ParseKeyDb env file
        ∧ main env (prog :: "db" :: file :: rest) = ParseKeyDb env file
        ∧ main env (prog :: "dbx" :: file :: rest) = ParseKeyDb env file
        ∧ main env (prog :: "siglist" :: file :: rest) = ParseSignatureList env file
        ∧ main env (prog :: "signed" :: file :: rest) = ParseEFIAuthVariable env file
        ∧ main env (prog :: "signed-image" :: file :: rest) = ParseEFIImage env file)
    ∧ (∀ (efiType file : String) (rest : List String),
        efiType ∉ ["KEK", "PK", "db", "dbx", "siglist", "signed", "signed-image"] →
        main env (prog :: efiType :: file :: rest) = Run.mk [] Outcome.returned) := by
  refine ⟨rfl, fun _ => rfl, ?_, ?_⟩
  · intro file rest
    refine ⟨?_, ?_, ?_, ?_, ?_, ?_, ?_⟩ <;> simp [main]
  · intro efiType file rest h
    simp only [List.mem_cons, List.mem_singleton, List.not_mem_nil, or_false, not_or] at h
    obtain ⟨h1, h2, h3, h4, h5, h6, h7⟩ := h
    simp [main, h1, h2, h3, h4, h5, h6, h7]

/-- C9, at concrete arguments: a first argument that names no handler. -/
theorem main_dispatch_witness :
    "pk" ∉ ["KEK", "PK", "db", "dbx", "siglist", "signed", "signed-image"]
    ∧ main sampleEnv ["efianalyze", "pk", "db.esl"] = Run.mk [] Outcome.returned
    ∧ main sampleEnv ["efianalyze"] = Run.mk [Event.Fatalln "Need type"] (Outcome.exited 1)
    ∧ main sampleEnv ["efianalyze", "db"] =
        Run.mk [Event.Fatalln "Need filename"] (Outcome.exited 1)
    ∧ main sampleEnv ("efianalyze" :: "siglist" :: "db.esl" :: []) =
        ParseSignatureList sampleEnv "db.esl" :=
  ⟨by decide,
   (main_dispatch sampleEnv "efianalyze").2.2.2 "pk" "db.esl" [] (by decide),
   (main_dispatch sampleEnv "efianalyze").1,
   (main_dispatch sampleEnv "efianalyze").2.1 "db",
   ((main_dispatch sampleEnv "efianalyze").2.2.1 "db.esl" []).2.2.2.2.1⟩

/-- C10, refuted at a concrete input: the efivars file "missing" does not
open, `ReadEfivarsFile` returns the nil reader with the error, `ParseKeyDb`
discards the error and calls the decoder on the nil reader, and the decoder's
panic ends the run: a failed read is fatal in `ParseKeyDb` too, and no
successful read returns the nil reader to compare the run with. -/
theorem ParseKeyDb_read_failure_panics :
    sampleEnv.ReadEfivarsFile "missing" = (0, Reader.nil, some "open: no such file or directory")
    ∧ (sampleEnv.ReadSignatureDatabase Reader.nil).1 = CallResult.panic
    ∧ ParseKeyDb sampleEnv "missing" =
        Run.mk [Event.ReadEfivarsFile "missing", Event.ReadSignatureDatabase Reader.nil]
          Outcome.panicked
    ∧ (ParseKeyDb sampleEnv "missing").outcome ≠ Outcome.returned :=
  ⟨rfl, rfl, rfl, by decide⟩

/-- C10, amended: only `ParseEFIImage` tests the error of the read of the input
file; there the run is the read followed by `log.Fatal` of the read error, with
no call of `GetSignatureDataDirectory`.  `ParseSignatureList`,
`ParseEFIAuthVariable` and `ParseKeyDb` discard the read error and call the
decoder on the reader over whatever the failed read returned; their run is
then the one the decoder's result on that reader dictates: the report, `log.Fatal`
of the decoder's error, or the decoder's panic.  For `ParseSignatureList` and
`ParseEFIAuthVariable`, whose reader is built over the bytes the read returned,
this is the run of a successful read that returned the same bytes. -/
theorem read_error_tested_only_in_ParseEFIImage (env : Env) (filename : String)
    (data : Bytes) (attrs : Nat) (f : Reader) (err : String) :
    (env.ReadFile filename = (data, some err) →
      ParseEFIImage env filename =
        Run.mk [Event.ReadFile filename, Event.Fatal err] (Outcome.exited 1))
    ∧ (env.ReadFile filename = (data, some err) →
      ParseSignatureList env filename =
        (match (env.ReadSignatureDatabase (NewReader data)).1 with
         | CallResult.ok siglist =>
           Run.mk ([Event.ReadFile filename, Event.ReadSignatureDatabase (NewReader data)] ++
             FormatSignatureList env [] siglist) Outcome.returned
         | CallResult.error e =>
           Run.mk [Event.ReadFile filename, Event.ReadSignatureDatabase (NewReader data),
             Event.Fatal e] (Outcome.exited 1)
         | CallResult.panic =>
           Run.mk [Event.ReadFile filename, Event.ReadSignatureDatabase (NewReader data)]
             Outcome.panicked))
    ∧ (env.ReadFile filename = (data, some err) →
      ParseEFIAuthVariable env filename =
        (match env.ReadEFIVariableAuthencation2 (NewReader data) with
         | (CallResult.ok sig, reader) =>
           (match (env.ReadSignatureDatabase reader).1 with
            | CallResult.ok siglist =>
              Run.mk ([Event.ReadFile filename,
                Event.ReadEFIVariableAuthencation2 (NewReader data)] ++
                FormatEFIVariableAuth2 env [] sig ++
                Event.ReadSignatureDatabase reader :: FormatSignatureList env [] siglist)
                Outcome.returned
            | CallResult.error e =>
              Run.mk ([Event.ReadFile filename,
                Event.ReadEFIVariableAuthencation2 (NewReader data)] ++
                FormatEFIVariableAuth2 env [] sig ++
                [Event.ReadSignatureDatabase reader, Event.Fatal e]) (Outcome.exited 1)
            | CallResult.panic =>
              Run.mk ([Event.ReadFile filename,
                Event.ReadEFIVariableAuthencation2 (NewReader data)] ++
                FormatEFIVariableAuth2 env [] sig ++
                [Event.ReadSignatureDatabase reader]) Outcome.panicked)
         | (CallResult.error e, _) =>
           Run.mk [Event.ReadFile filename,
             Event.ReadEFIVariableAuthencation2 (NewReader data), Event.Fatal e]
             (Outcome.exited 1)
         | (CallResult.panic, _) =>
           Run.mk [Event.ReadFile filename,
             Event.ReadEFIVariableAuthencation2 (NewReader data)] Outcome.panicked))
    ∧ (env.ReadEfivarsFile filename = (attrs, f, some err) →
      ParseKeyDb env filename =
        (match (env.ReadSignatureDatabase f).1 with
         | CallResult.ok siglist =>
           Run.mk ([Event.ReadEfivarsFile filename, Event.ReadSignatureDatabase f] ++
             FormatSignatureList env [] siglist) Outcome.returned
         | CallResult.error e =>
           Run.mk [Event.ReadEfivarsFile filename, Event.ReadSignatureDatabase f,
             Event.Fatal e] (Outcome.exited 1)
         | CallResult.panic =>
           Run.mk [Event.ReadEfivarsFile filename, Event.ReadSignatureDatabase f]
             Outcome.panicked))
    ∧ ParseSignatureList { env with ReadFile := fun _ => (data, some err) } filename =
        ParseSignatureList { env with ReadFile := fun _ => (data, none) } filename
    ∧ ParseEFIAuthVariable { env with ReadFile := fun _ => (data, some err) } filename =
        ParseEFIAuthVariable { env with ReadFile := fun _ => (data, none) } filename := by
  refine ⟨?_, ?_, ?_, ?_, rfl, rfl⟩
  · intro h
    simp [ParseEFIImage, h]
  · intro h
    have hd : (env.ReadFile filename).1 = data := by rw [h]
    cases hr : (env.ReadSignatureDatabase (NewReader data)).1 with
    | panic => rw [ParseSignatureList_panic env filename (by rw [hd]; exact hr), hd]
    | error e => rw [ParseSignatureList_error env filename e (by rw [hd]; exact hr), hd]
    | ok db => rw [ParseSignatureList_ok env filename db (by rw [hd]; exact hr), hd]
  · intro h
    have hd : (env.ReadFile filename).1 = data := by rw [h]
    cases ha : env.ReadEFIVariableAuthencation2 (NewReader data) with
    | mk res reader =>
      have ha2 : env.ReadEFIVariableAuthencation2 (NewReader (env.ReadFile filename).1) =
          (res, reader) := by rw [hd]; exact ha
      cases res with
      | panic => rw [ParseEFIAuthVariable_auth_panic env filename (by rw [ha2]), hd]
      | error e => rw [ParseEFIAuthVariable_auth_error env filename e (by rw [ha2]), hd]
      | ok sig =>
        simp only
        cases hr : (env.ReadSignatureDatabase reader).1 with
        | panic => rw [ParseEFIAuthVariable_db_panic env filename sig reader ha2 hr, hd]
        | error e => rw [ParseEFIAuthVariable_db_error env filename e sig reader ha2 hr, hd]
        | ok db => rw [ParseEFIAuthVariable_ok env filename sig reader db ha2 hr, hd]
  · intro h
    have hd : (env.ReadEfivarsFile filename).2.1 = f := by rw [h]
    cases hr : (env.ReadSignatureDatabase f).1 with
    | panic => rw [ParseKeyDb_panic env filename (by rw [hd]; exact hr), hd]
    | error e => rw [ParseKeyDb_error env filename e (by rw [hd]; exact hr), hd]
    | ok db => rw [ParseKeyDb_ok env filename db (by rw [hd]; exact hr), hd]

/-- C10, amended, at concrete inputs: an image that does not open, a signature
list whose read fails after one byte, and an efivars file that does not open. -/
theorem read_error_tested_only_in_ParseEFIImage_witness :
    sampleEnv.ReadFile "missing.efi" = ([], some "open: no such file or directory")
    ∧ ParseEFIImage sampleEnv "missing.efi" =
        Run.mk [Event.ReadFile "missing.efi", Event.Fatal "open: no such file or directory"]
          (Outcome.exited 1)
    ∧ sampleEnv.ReadFile "torn.esl" = ([1], some "read torn.esl: input/output error")
    ∧ ParseSignatureList sampleEnv "torn.esl" =
        (match (sampleEnv.ReadSignatureDatabase (NewReader [1])).1 with
         | CallResult.ok siglist =>
           Run.mk ([Event.ReadFile "torn.esl", Event.ReadSignatureDatabase (NewReader [1])] ++
             FormatSignatureList sampleEnv [] siglist) Outcome.returned
         | CallResult.error e =>
           Run.mk [Event.ReadFile "torn.esl", Event.ReadSignatureDatabase (NewReader [1]),
             Event.Fatal e] (Outcome.exited 1)
         | CallResult.panic =>
           Run.mk [Event.ReadFile "torn.esl", Event.ReadSignatureDatabase (NewReader [1])]
             Outcome.panicked)
    ∧ ParseSignatureList sampleEnv "torn.esl" =
        Run.mk (Event.ReadFile "torn.esl" :: Event.ReadSignatureDatabase (Reader.stream [1]) ::
          FormatSignatureList sampleEnv [] [sampleX509List, sampleSHA256List]) Outcome.returned
    ∧ sampleEnv.ReadEfivarsFile "missing" =
        (0, Reader.nil, some "open: no such file or directory")
    ∧ ParseKeyDb sampleEnv "missing" =
        (match (sampleEnv.ReadSignatureDatabase Reader.nil).1 with
         | CallResult.ok siglist =>
           Run.mk ([Event.ReadEfivarsFile "missing", Event.ReadSignatureDatabase Reader.nil] ++
             FormatSignatureList sampleEnv [] siglist) Outcome.returned
         | CallResult.error e =>
           Run.mk [Event.ReadEfivarsFile "missing", Event.ReadSignatureDatabase Reader.nil,
             Event.Fatal e] (Outcome.exited 1)
         | CallResult.panic =>
           Run.mk [Event.ReadEfivarsFile "missing", Event.ReadSignatureDatabase Reader.nil]
             Outcome.panicked) :=
  ⟨rfl,
   (read_error_tested_only_in_ParseEFIImage sampleEnv "missing.efi" [] 0 Reader.nil
     "open: no such file or directory").1 rfl,
   rfl,
   (read_error_tested_only_in_ParseEFIImage sampleEnv "torn.esl" [1] 0 Reader.nil
     "read torn.esl: input/output error").2.1 rfl,
   by decide,
   rfl,
   (read_error_tested_only_in_ParseEFIImage sampleEnv "missing" [] 0 Reader.nil
     "open: no such file or directory").2.2.2.1 rfl⟩

end Efianalyze
